import Mathlib

/-!
Verification of the GovAssist conversational form-filling backend.

The development shallowly embeds the Python sources:
  * backend/app/form_manager.py   (form sessions, field validation)
  * backend/app/routers/chat.py   (marker codec, AzureRealtimeBridge)

Python strings are modelled as Lean `String` (lists of characters,
ASCII-faithful for the inputs of interest), Python dicts that preserve
insertion order as association lists, Python `float` results of the
guarded divisions as exact rationals, and the partiality of Python
division as `Option`.  External collaborators (the audio transcoder,
the schema files on disk, `uuid4`) are parameters gathered in `Env`;
all theorems are universally quantified over them.
-/

namespace GovAssist

/-! ## Python string primitives -/

/-- Python whitespace class (`\s`, `str.strip`): space, tab, newline,
carriage return, form feed, vertical tab. -/
def pySpace (c : Char) : Bool :=
  c = ' ' || c = '\t' || c = '\n' || c = '\r' || c = '\x0c' || c = '\x0b'

/-- Embeds `str.strip()`: remove leading and trailing whitespace. -/
def pyStrip (s : String) : String :=
  String.mk ((((s.toList.dropWhile pySpace).reverse).dropWhile pySpace).reverse)

/-- Embeds `str.lower()` (ASCII model). -/
def lowerStr (s : String) : String :=
  String.mk (s.toList.map Char.toLower)

/-- Embeds `str.isdigit()` (ASCII model): nonempty and all digits. -/
def pyIsDigit (s : String) : Bool :=
  !s.isEmpty && s.toList.all Char.isDigit

/-- Embeds `int(s)` for an all-digit string. -/
def digitsToNat (s : String) : Nat :=
  s.toList.foldl (fun a c => a * 10 + (c.toNat - '0'.toNat)) 0

/-- Embeds `str.count(c)` for a single-character argument. -/
def countChar (c : Char) (s : String) : Nat :=
  (s.toList.filter (fun d => d = c)).length

/-- Split a character list at every occurrence of `sep`
(Python `str.split(sep)` semantics: always at least one part). -/
def splitChar (sep : Char) : List Char → List (List Char)
  | [] => [[]]
  | c :: cs =>
    let r := splitChar sep cs
    if c = sep then [] :: r
    else
      match r with
      | [] => [[c]]
      | h :: t => (c :: h) :: t

/-- Embeds `str.split(sep)` on strings. -/
def pySplitOnChar (sep : Char) (s : String) : List String :=
  (splitChar sep s.toList).map String.mk

/-- Last element of a split (Python `split(...)[-1]`, total because a
split is never empty). -/
def lastD (l : List String) : String :=
  (l.getLast?).getD ""

/-- Embeds `", ".join(l)`. -/
def joinComma : List String → String
  | [] => ""
  | [x] => x
  | x :: xs => x ++ ", " ++ joinComma xs

/-! ## Marker protocol codec (regex engine)

`chat.py` matches three regexes with `re.IGNORECASE`:
`##FORM:(\w+)##`, `##FORM_VALUE:([^#]+)##`, `##QUESTION_ANSWERED##`.
Each is embedded as a matcher that tries to match at the head of a
character list and returns the first capture group together with the
remaining characters; `re.search` scans positions left to right and
`re.sub` removes all non-overlapping matches left to right. -/

/-- Match a literal case-insensitively; return the rest on success. -/
def dropLitCI : List Char → List Char → Option (List Char)
  | [], l => some l
  | _ :: _, [] => none
  | p :: ps, c :: cs => if c.toLower = p.toLower then dropLitCI ps cs else none

/-- Greedy span of a character predicate: `(run, rest)`. -/
def spanP (p : Char → Bool) : List Char → List Char × List Char
  | [] => ([], [])
  | c :: cs =>
    if p c then
      let r := spanP p cs
      (c :: r.1, r.2)
    else ([], c :: cs)

/-- Regex `\w` (ASCII model): letters, digits, underscore. -/
def isWordChar (c : Char) : Bool :=
  c.isAlpha || c.isDigit || c = '_'

/-- Match `##FORM:(\w+)##` at the head of the list. -/
def matchFormAt (l : List Char) : Option (String × List Char) :=
  match dropLitCI "##form:".toList l with
  | none => none
  | some r1 =>
    let pr := spanP isWordChar r1
    if pr.1.isEmpty then none
    else
      match dropLitCI "##".toList pr.2 with
      | none => none
      | some r3 => some (String.mk pr.1, r3)

/-- Match `##FORM_VALUE:([^#]+)##` at the head of the list. -/
def matchValueAt (l : List Char) : Option (String × List Char) :=
  match dropLitCI "##form_value:".toList l with
  | none => none
  | some r1 =>
    let pr := spanP (fun c => c ≠ '#') r1
    if pr.1.isEmpty then none
    else
      match dropLitCI "##".toList pr.2 with
      | none => none
      | some r3 => some (String.mk pr.1, r3)

/-- Match the literal `##QUESTION_ANSWERED##` at the head of the list. -/
def matchQAAt (l : List Char) : Option (String × List Char) :=
  match dropLitCI "##question_answered##".toList l with
  | none => none
  | some r => some ("", r)

/-- Embeds `re.search`: first matching position, returning the capture group. -/
def searchFirst (m : List Char → Option (String × List Char)) :
    List Char → Option String
  | [] => none
  | c :: cs =>
    match m (c :: cs) with
    | some gr => some gr.1
    | none => searchFirst m cs

/-- Embeds `re.sub` with an empty replacement, with explicit fuel (the list length suffices):
remove all non-overlapping matches left to right. -/
def subAllF (m : List Char → Option (String × List Char)) :
    Nat → List Char → List Char
  | _, [] => []
  | 0, l => l
  | fuel + 1, c :: cs =>
    match m (c :: cs) with
    | some gr => subAllF m fuel gr.2
    | none => c :: subAllF m fuel cs

/-- Embeds `re.sub` removing every match of the pattern from the text. -/
def subAll (m : List Char → Option (String × List Char)) (l : List Char) :
    List Char :=
  subAllF m l.length l

/-- Embeds `_extract_form_from_text`: first `##FORM:name##` capture (lowercased),
and the text with all such markers removed and stripped; unchanged text
and `none` when the marker is absent.  There is no keyword fallback. -/
def _extract_form_from_text (text : String) : String × Option String :=
  match searchFirst matchFormAt text.toList with
  | some g => (pyStrip (String.mk (subAll matchFormAt text.toList)), some (lowerStr g))
  | none => (text, none)

/-- Embeds `_extract_form_value_from_text`: first `##FORM_VALUE:v##` capture
(stripped), and the text with all such markers removed and stripped. -/
def _extract_form_value_from_text (text : String) : String × Option String :=
  match searchFirst matchValueAt text.toList with
  | some g => (pyStrip (String.mk (subAll matchValueAt text.toList)), some (pyStrip g))
  | none => (text, none)

/-- Embeds `_extract_question_answered_from_text`. -/
def _extract_question_answered_from_text (text : String) : String × Bool :=
  match searchFirst matchQAAt text.toList with
  | some _ => (pyStrip (String.mk (subAll matchQAAt text.toList)), true)
  | none => (text, false)

/-- Collapse runs of whitespace to single spaces (`re.sub(r'\s+', ' ', t)`);
the flag records whether the previous character was whitespace. -/
def collapseWsGo : Bool → List Char → List Char
  | _, [] => []
  | prev, c :: cs =>
    if pySpace c then
      if prev then collapseWsGo true cs else ' ' :: collapseWsGo true cs
    else c :: collapseWsGo false cs

/-- Embeds `_extract_conversational_content_only`: remove all three marker
patterns (form, form-value, question-answered, in that order), collapse
whitespace, strip. -/
def _extract_conversational_content_only (text : String) : String :=
  let l1 := subAll matchFormAt text.toList
  let l2 := subAll matchValueAt l1
  let l3 := subAll matchQAAt l2
  pyStrip (String.mk (collapseWsGo false l3))

/-- Marker pipeline exactly as `_send_assistant_message` applies it:
form, then form-value, then question-answered; returns the cleaned text. -/
def marker_pipeline_clean (text : String) : String :=
  (_extract_question_answered_from_text
    (_extract_form_value_from_text
      (_extract_form_from_text text).1).1).1

/-- Absence of the three markers (as found by `re.search`). -/
def noMarkers (t : String) : Prop :=
  searchFirst matchFormAt t.toList = none ∧
  searchFirst matchValueAt t.toList = none ∧
  searchFirst matchQAAt t.toList = none

/-- Presence of the form-activation marker. -/
def hasFormMarker (t : String) : Bool :=
  (searchFirst matchFormAt t.toList).isSome

/-! ## Form manager (`form_manager.py`) -/

/-- A validated field value: Python returns `str`, `int` or `float`
from `_validate_and_convert_value`; floats are modelled as rationals. -/
inductive PyVal where
  | s (v : String)
  | i (v : Int)
  | f (v : Rat)
deriving Repr, DecidableEq

/-- Embeds `str(value)` for a `PyVal` (used only inside prompt strings). -/
def pyValStr : PyVal → String
  | .s v => v
  | .i v => toString v
  | .f v => toString v

/-- Embeds `FormField` dataclass.  The `validation` metadata dict is carried as
an opaque association list; no code path ever reads it. -/
structure FormField where
  id : String
  label : String
  ftype : String
  required : Bool
  options : Option (List String) := none
  validation : Option (List (String × String)) := none
deriving Repr, DecidableEq

/-- Embeds `FormSession` dataclass. `completed_fields` is an insertion-ordered
dict (association list). -/
structure FormSession where
  form_id : String
  title : String
  fields : List FormField
  current_field_index : Nat := 0
  completed_fields : List (String × PyVal) := []
deriving Repr, DecidableEq

/-- Embeds `FormSession.current_field`. -/
def FormSession.current_field (s : FormSession) : Option FormField :=
  if s.current_field_index < s.fields.length then s.fields[s.current_field_index]?
  else none

/-- Embeds `FormSession.is_complete`. -/
def FormSession.is_complete (s : FormSession) : Bool :=
  s.fields.length ≤ s.current_field_index

/-- Python `/`, which raises `ZeroDivisionError` on a zero divisor,
modelled as a partial operation. -/
def pyDiv (a b : Rat) : Option Rat :=
  if b = 0 then none else some (a / b)

/-- Embeds `FormSession.progress_percentage`: `100.0` for an empty field list,
otherwise `(current_field_index / len(fields)) * 100`; the division is
the partial `pyDiv`. -/
def FormSession.progress_percentage (s : FormSession) : Option Rat :=
  if s.fields.isEmpty then some 100
  else (pyDiv (s.current_field_index : Rat) (s.fields.length : Rat)).map (fun q => q * 100)

/-- Ordered-dict update: replace in place if the key exists, else append. -/
def dictSet {α : Type} (k : String) (v : α) : List (String × α) → List (String × α)
  | [] => [(k, v)]
  | (k', v') :: rest => if k' = k then (k, v) :: rest else (k', v') :: dictSet k v rest

/-- Ordered-dict lookup. -/
def dictFind {α : Type} (k : String) (d : List (String × α)) : Option α :=
  (d.find? (fun p => p.1 = k)).map (fun p => p.2)

/-- Embeds `FormSession.set_field_value`: store the value and advance the cursor
when `field_id` names the current field; otherwise no change. -/
def FormSession.set_field_value (s : FormSession) (field_id : String) (value : PyVal) :
    FormSession × Bool :=
  match s.current_field with
  | some f =>
    if f.id = field_id then
      ({ s with completed_fields := dictSet field_id value s.completed_fields,
                current_field_index := s.current_field_index + 1 }, true)
    else (s, false)
  | none => (s, false)

/-- Embeds `FormSession.get_next_field_prompt`. -/
def FormSession.get_next_field_prompt (s : FormSession) : Option String :=
  match s.current_field with
  | none => none
  | some field =>
    let p0 := "What is your " ++ lowerStr field.label ++ "?"
    let p1 :=
      if field.ftype = "date" then p0 ++ " (Please provide in YYYY-MM-DD format)"
      else if field.ftype = "number" then p0 ++ " (Please provide a number)"
      else
        match field.options with
        | some opts => if opts.isEmpty then p0 else p0 ++ " (Choose from: " ++ joinComma opts ++ ")"
        | none => p0
    some (if field.required then p1 ++ " (Required)" else p1)

/-- A parsed form schema file (the JSON files under `form_schemas/` are
external data; `create_form_session` builds `FormField`s from them). -/
structure FormSchema where
  form_id : String
  title : String
  fields : List FormField
deriving Repr, DecidableEq

/-- External collaborators of the bridge, quantified over in every
theorem: the Python `float()` parser, the schema files on disk,
`_process_audio_data` (transcoder + verification, may abort),
`_save_audio_response` (file system, may fail), the PCM-to-WAV
conversion of buffered audio, and `uuid.uuid4()`. -/
structure Env where
  floatParse : String → Option Rat
  loadSchema : String → Option FormSchema
  processAudio : String → Option String
  saveAudio : String → String → Option String
  prepareAudio : String → String
  newUuid : String

/-- Embeds `FormFieldManager._validate_and_convert_value`: type-directed
validation and coercion; `none` models Python `None` (rejection). -/
def _validate_and_convert_value (env : Env) (field : FormField) (value : String) :
    Option PyVal :=
  let v := pyStrip value
  if field.ftype = "text" then
    if v = "" then none else some (.s v)
  else if field.ftype = "number" then
    if pyIsDigit v then some (.i (digitsToNat v))
    else (env.floatParse v).map .f
  else if field.ftype = "date" then
    if v.length = 10 ∧ countChar '-' v = 2 then
      let parts := pySplitOnChar '-' v
      if parts.length = 3 ∧ parts.all pyIsDigit then some (.s v) else none
    else none
  else if field.ftype = "email" then
    if v.toList.contains '@' ∧ (lastD (pySplitOnChar '@' v)).toList.contains '.' then
      some (.s v)
    else none
  else
    match field.options with
    | some opts =>
      if opts.isEmpty then some (.s v)
      else
        let lower_options := opts.map lowerStr
        if lower_options.contains (lowerStr v) then
          match opts.find? (fun o => lowerStr o = lowerStr v) with
          | some o => some (.s o)
          | none => none
        else none
    | none => some (.s v)

/-- Embeds `FormFieldManager`: the process-wide session store
(`active_sessions : user_id -> FormSession`). -/
structure FormFieldManager where
  active_sessions : List (String × FormSession) := []
deriving Repr, DecidableEq

/-- Embeds `FormFieldManager.get_active_session`. -/
def get_active_session (m : FormFieldManager) (user_id : String) : Option FormSession :=
  dictFind user_id m.active_sessions

/-- Embeds `FormFieldManager.create_form_session`: load the schema (external
file, via `Env`), build the session at cursor 0, register it replacing
any prior session for the user. -/
def create_form_session (env : Env) (m : FormFieldManager) (user_id form_name : String) :
    FormFieldManager × Option FormSession :=
  match env.loadSchema form_name with
  | none => (m, none)
  | some schema =>
    let session : FormSession :=
      { form_id := schema.form_id, title := schema.title, fields := schema.fields }
    ({ active_sessions := dictSet user_id session m.active_sessions }, some session)

/-- The `form_progress` dict of `process_user_answer`. -/
structure ProgressInfo where
  current_index : Nat
  total_fields : Nat
  percentage : Option Rat
  is_complete : Bool
deriving Repr, DecidableEq

/-- The `field` dict attached to a validation error (id, label, type;
the dict carries no options key). -/
structure ErrFieldInfo where
  id : String
  label : String
  ftype : String
deriving Repr, DecidableEq

/-- The `completed_field` dict of a successful answer. -/
structure DoneFieldInfo where
  id : String
  label : String
  value : PyVal
deriving Repr, DecidableEq

/-- The `next_field` dict of a successful, non-final answer. -/
structure NextFieldInfo where
  id : String
  label : String
  ftype : String
  required : Bool
  prompt : Option String
deriving Repr, DecidableEq

/-- The `completed_form` dict of a final answer. -/
structure DoneFormInfo where
  form_id : String
  title : String
  data : List (String × PyVal)
deriving Repr, DecidableEq

/-- The response dict of `process_user_answer`. -/
structure AnswerResult where
  success : Bool
  error : Option String := none
  errField : Option ErrFieldInfo := none
  completed_field : Option DoneFieldInfo := none
  form_progress : Option ProgressInfo := none
  next_field : Option NextFieldInfo := none
  completed_form : Option DoneFormInfo := none
deriving Repr, DecidableEq

/-- Embeds `FormFieldManager.process_user_answer`: validate the answer against
the current field; on failure return a structured error and leave the
store untouched; on success store the value, advance the cursor and
report progress (Python mutates the session in place, modelled by
writing the updated session back into the store). -/
def process_user_answer (env : Env) (m : FormFieldManager) (user_id answer : String) :
    FormFieldManager × AnswerResult :=
  match get_active_session m user_id with
  | none =>
    (m, { success := false, error := some "No active form session or no current field" })
  | some session =>
    match session.current_field with
    | none =>
      (m, { success := false, error := some "No active form session or no current field" })
    | some current_field =>
      match _validate_and_convert_value env current_field answer with
      | none =>
        (m, { success := false,
              error := some ("Invalid value for " ++ current_field.label ++ ". Expected "
                ++ current_field.ftype ++ "."),
              errField := some { id := current_field.id, label := current_field.label,
                                 ftype := current_field.ftype } })
      | some processed_value =>
        let sv := session.set_field_value current_field.id processed_value
        let session := sv.1
        let m' : FormFieldManager :=
          { active_sessions := dictSet user_id session m.active_sessions }
        let progress : ProgressInfo :=
          { current_index := session.current_field_index,
            total_fields := session.fields.length,
            percentage := session.progress_percentage,
            is_complete := session.is_complete }
        let base : AnswerResult :=
          { success := sv.2,
            completed_field := some { id := current_field.id, label := current_field.label,
                                      value := processed_value },
            form_progress := some progress }
        if ¬ session.is_complete then
          match session.current_field with
          | some next_field =>
            let nf : NextFieldInfo :=
              { id := next_field.id, label := next_field.label, ftype := next_field.ftype,
                required := next_field.required, prompt := session.get_next_field_prompt }
            (m', { base with next_field := some nf })
          | none => (m', base)
        else
          let cf : DoneFormInfo :=
            { form_id := session.form_id, title := session.title,
              data := session.completed_fields }
          (m', { base with completed_form := some cf })

/-! ## Realtime bridge (`chat.py`, `AzureRealtimeBridge`)

State-mutating methods become functions `Env -> Bridge -> ... -> Bridge × List Out`
where `Out` records every frame sent to the frontend websocket or to the
upstream service, in order.  The connection itself, logging, timing and
the debug audio dumps have no effect on the modelled state and are
omitted; the two dead methods (`_delayed_field_request`,
`_send_assistant_audio_message_from_part`) have no callers and are not
modelled. -/

/-- One element of an upstream item's `content` list (missing keys
default to the empty string / `none`, matching `dict.get`). -/
structure ContentItem where
  ctype : String := ""
  text : String := ""
  audio : String := ""
  transcript : Option String := none
deriving Repr, DecidableEq

/-- An upstream conversation item (`event["item"]`). -/
structure UpItem where
  itype : String := ""
  role : String := ""
  content : List ContentItem := []
  id : Option String := none
deriving Repr, DecidableEq

/-- An upstream content part (`event["part"]`). -/
structure UpPart where
  ptype : String := ""
  text : String := ""
  audio : String := ""
  transcript : Option String := none
deriving Repr, DecidableEq

/-- An upstream event frame. -/
structure UpEvent where
  etype : String := ""
  response_id : Option String := none
  delta : String := ""
  item : UpItem := {}
  part : UpPart := {}
  item_id : Option String := none
deriving Repr, DecidableEq

/-- Python truthiness of `event.get("response_id")`: present and nonempty. -/
def truthyS : Option String → Bool
  | none => false
  | some v => v ≠ ""

/-- The `_pending_requests` queue entries (dicts tagged by `type`;
a legacy `field_request` entry may lack the `field_prompt` key). -/
inductive PendingRequest where
  | fieldRequest (field_prompt : Option String)
  | fieldRequestWithAck (completed_value : String) (completed_field_label : String)
  | systemMessage (content : String)
  | userAudioMessage (audio_data : String)
  | userTextMessage (content : String)
deriving Repr, DecidableEq

/-- Frames sent to the frontend websocket. -/
inductive FMsg where
  | assistantDelta (delta : String)
  | assistantAudioDelta (delta : String)
  | assistantMessage (id : String) (content : String) (form : Option (String × String))
  | audioMessage (id : String) (content : String) (media_uri : Option String)
      (audio_data : Option String) (form : Option (String × String))
  | formFieldFocus (field_id : String) (progress : ProgressInfo)
  | formFieldUpdate (field_id : String) (value : PyVal) (progress : Option ProgressInfo)
  | formFieldError (error : String) (field : Option ErrFieldInfo)
  | formCompleted (data : List (String × PyVal))
deriving Repr, DecidableEq

/-- Frames sent to the upstream service. -/
inductive UMsg where
  | createSystemItem (text : String)
  | createUserTextItem (text : String)
  | createUserAudioItem (audio : String)
  | responseCreateTextOnly
  | responseCreateAudioText
deriving Repr, DecidableEq

/-- An observable output of the bridge. -/
inductive Out where
  | toFrontend (m : FMsg)
  | toUpstream (m : UMsg)
deriving Repr, DecidableEq

/-- The mutable state of one `AzureRealtimeBridge`, together with the
process-wide `form_field_manager` it reads and writes. -/
structure Bridge where
  user_id : String
  current_response_id : Option String := none
  response_sent : Bool := false
  form_session_active : Bool := false
  awaiting_field_answer : Bool := false
  ai_responding : Bool := false
  pending_requests : List PendingRequest := []
  response_buffer : List String := []
  audio_buffer : List String := []
  sessions : FormFieldManager := {}
deriving Repr, DecidableEq

/-- A state transition together with its emitted frames. -/
abbrev Step := Bridge × List Out

/-- Embeds `_get_form_url`. -/
def _get_form_url (form_name : String) : String :=
  if form_name = "aadhaar" then "/forms/formAadhaar.html"
  else if form_name = "aadhar" then "/forms/formAadhaar.html"
  else if form_name = "income" then "/forms/formIncome.html"
  else if form_name = "mudra" then "/forms/formIncome.html"
  else ""

/-- Embeds `_extract_text_from_output_item`: first `text`-typed content item of
an assistant message; empty text coerces to `None` (`... or None`). -/
def _extract_text_from_output_item (item : UpItem) : Option String :=
  if item.itype = "message" ∧ item.role = "assistant" then
    match item.content.find? (fun ci => ci.ctype = "text") with
    | some ci => if ci.text = "" then none else some ci.text
    | none => none
  else none

/-- Embeds `_extract_text_from_content_part`. -/
def _extract_text_from_content_part (part : UpPart) : Option String :=
  if part.ptype = "text" then
    if part.text = "" then none else some part.text
  else none

/-- Embeds `_is_audio_output_item`. -/
def _is_audio_output_item (item : UpItem) : Bool :=
  item.itype = "message" && item.role = "assistant"
    && item.content.any (fun ci => ci.ctype = "audio")

/-- Embeds `_extract_audio_from_output_item` (the found item's `audio` may be
the empty string, which the caller treats as falsy). -/
def _extract_audio_from_output_item (item : UpItem) : Option String :=
  if item.itype = "message" ∧ item.role = "assistant" then
    match item.content.find? (fun ci => ci.ctype = "audio") with
    | some ci => some ci.audio
    | none => none
  else none

/-- Embeds `send_system_message`: queue while a turn is open, otherwise send a
system conversation item plus a response request and mark the turn open. -/
def send_system_message (s : Bridge) (content : String) : Step :=
  if s.ai_responding then
    ({ s with pending_requests := s.pending_requests ++ [.systemMessage content] }, [])
  else
    ({ s with ai_responding := true },
     [.toUpstream (.createSystemItem content), .toUpstream .responseCreateTextOnly])

/-- Embeds `send_user_message`: queue while a turn is open, otherwise send a
user text item plus a response request and mark the turn open. -/
def send_user_message (s : Bridge) (content : String) : Step :=
  if s.ai_responding then
    ({ s with pending_requests := s.pending_requests ++ [.userTextMessage content] }, [])
  else
    ({ s with ai_responding := true },
     [.toUpstream (.createUserTextItem content), .toUpstream .responseCreateTextOnly])

/-- Embeds `send_user_audio_message`: queue while a turn is open; otherwise run
the audio pipeline (`_process_audio_data` + verification, which may
abort the send) and on success send the audio item plus a response
request and mark the turn open. -/
def send_user_audio_message (env : Env) (s : Bridge) (audio_data : String) : Step :=
  if s.ai_responding then
    ({ s with pending_requests := s.pending_requests ++ [.userAudioMessage audio_data] }, [])
  else
    match env.processAudio audio_data with
    | none => (s, [])
    | some processed =>
      ({ s with ai_responding := true },
       [.toUpstream (.createUserAudioItem processed), .toUpstream .responseCreateAudioText])

/-- The instruction text wrapped around a field prompt. -/
def fieldRequestWrap (field_prompt : String) : String :=
  "Now please ask the user for the next field information. Present this field request to the user in a natural and helpful way: "
    ++ field_prompt

/-- Embeds `ProgressInfo` snapshot of a session (the `form_progress` payload of
`form_field_focus`). -/
def sessionProgress (session : FormSession) : ProgressInfo :=
  { current_index := session.current_field_index,
    total_fields := session.fields.length,
    percentage := session.progress_percentage,
    is_complete := session.is_complete }

/-- Embeds `_ask_for_next_field`: queue a legacy field request while a turn is
open; otherwise focus the current field on the frontend and drive the
AI to ask for it via a system message. -/
def _ask_for_next_field (s : Bridge) : Step :=
  if s.ai_responding then
    ({ s with pending_requests := s.pending_requests ++ [.fieldRequest none] }, [])
  else
    match get_active_session s.sessions s.user_id with
    | none => (s, [])
    | some session =>
      match session.current_field with
      | none => (s, [])
      | some field =>
        let focus : FMsg := .formFieldFocus field.id (sessionProgress session)
        match session.get_next_field_prompt with
        | some field_prompt =>
          let r := send_system_message s (fieldRequestWrap field_prompt)
          ({ r.1 with awaiting_field_answer := true }, .toFrontend focus :: r.2)
        | none => (s, [.toFrontend focus])

/-- Embeds `_ask_for_next_field_with_acknowledgment`. -/
def _ask_for_next_field_with_acknowledgment (s : Bridge)
    (completed_value completed_field_label : String) : Step :=
  if s.ai_responding then
    ({ s with pending_requests := s.pending_requests
        ++ [.fieldRequestWithAck completed_value completed_field_label] }, [])
  else
    match get_active_session s.sessions s.user_id with
    | none => (s, [])
    | some session =>
      match session.current_field with
      | none => (s, [])
      | some field =>
        let focus : FMsg := .formFieldFocus field.id (sessionProgress session)
        match session.get_next_field_prompt with
        | some field_prompt =>
          let combined := "The user provided \x27" ++ completed_value ++ "\x27 for "
            ++ completed_field_label
            ++ ". Acknowledge this briefly and positively, then please ask the user for the next field information in a natural way: "
            ++ field_prompt
          let r := send_system_message s combined
          ({ r.1 with awaiting_field_answer := true }, .toFrontend focus :: r.2)
        | none => (s, [.toFrontend focus])

/-- Dispatch of one dequeued pending request (the `if/elif` chain inside
`_process_pending_requests`). -/
def dispatchRequest (env : Env) (s : Bridge) : PendingRequest → Step
  | .fieldRequest (some fp) => send_system_message s (fieldRequestWrap fp)
  | .fieldRequest none => _ask_for_next_field s
  | .fieldRequestWithAck v l => _ask_for_next_field_with_acknowledgment s v l
  | .systemMessage c => send_system_message s c
  | .userAudioMessage a => send_user_audio_message env s a
  | .userTextMessage c => send_user_message s c

/-- Embeds `_process_pending_requests`: when the queue is nonempty and no turn
is open, pop the oldest entry and execute it; otherwise do nothing. -/
def _process_pending_requests (env : Env) (s : Bridge) : Step :=
  match s.pending_requests with
  | [] => (s, [])
  | r :: rest =>
    if s.ai_responding then (s, [])
    else dispatchRequest env { s with pending_requests := rest } r

/-- Embeds `_process_field_answer`: feed an answer to the form manager; on
success push the field update (and, when complete, the completion) to
the frontend and drive the next prompt; on failure push the error and a
recovery system message.  Returns the transition and the boolean result. -/
def _process_field_answer (env : Env) (s : Bridge) (user_answer : String) : Step × Bool :=
  if ¬ s.form_session_active then ((s, []), false)
  else
    match get_active_session s.sessions s.user_id with
    | none => ((s, []), false)
    | some _ =>
      let pr := process_user_answer env s.sessions s.user_id user_answer
      let s := { s with sessions := pr.1 }
      let result := pr.2
      if result.success then
        let upd : FMsg := .formFieldUpdate
          ((result.completed_field.map (fun c => c.id)).getD "")
          ((result.completed_field.map (fun c => c.value)).getD (.s ""))
          result.form_progress
        if (result.form_progress.map (fun p => p.is_complete)).getD false then
          let s := { s with form_session_active := false, awaiting_field_answer := false }
          let doneMsg : FMsg := .formCompleted ((result.completed_form.map (fun c => c.data)).getD [])
          let label := (result.completed_field.map (fun c => c.label)).getD ""
          let valueStr := pyValStr ((result.completed_field.map (fun c => c.value)).getD (.s ""))
          let r1 := send_system_message s ("The user provided \x27" ++ valueStr ++ "\x27 for "
            ++ label ++ ". Acknowledge this briefly and thank them. The form has been completed successfully.")
          ((r1.1, .toFrontend upd :: .toFrontend doneMsg :: r1.2), true)
        else
          let r1 := _ask_for_next_field s
          ((r1.1, .toFrontend upd :: r1.2), true)
      else
        let errMsg : FMsg := .formFieldError (result.error.getD "") result.errField
        match get_active_session s.sessions s.user_id with
        | some session =>
          match session.current_field with
          | some _ =>
            let field_label := (result.errField.map (fun f => f.label)).getD "the current field"
            let context := "The user said \x27" ++ user_answer ++ "\x27 for " ++ field_label
              ++ ". Validation error: " ++ (result.error.getD "")
              ++ " Please interpret what the user likely meant, suggest the correct option, and ask for confirmation. If they confirm, provide the exact form value."
            let r1 := send_system_message s context
            ((r1.1, .toFrontend errMsg :: r1.2), false)
          | none => ((s, [.toFrontend errMsg]), false)
        | none => ((s, [.toFrontend errMsg]), false)

/-- Form-activation block shared by `_send_assistant_message` (text
variant: the first field prompt is appended to the outgoing content). -/
def activateFormText (env : Env) (s : Bridge) (form_name : Option String)
    (clean_text : String) : Bridge × Option (String × String) × String :=
  match form_name with
  | none => (s, none, clean_text)
  | some fn =>
    let url := _get_form_url fn
    if url = "" then (s, none, clean_text)
    else
      let cr := create_form_session env s.sessions s.user_id fn
      let s := { s with sessions := cr.1 }
      match cr.2 with
      | some session =>
        match session.current_field with
        | some _ =>
          let s := { s with form_session_active := true, awaiting_field_answer := true }
          match session.get_next_field_prompt with
          | some fp => (s, some (fn, url), clean_text ++ "\n\n" ++ fp)
          | none => (s, some (fn, url), clean_text)
        | none => (s, some (fn, url), clean_text)
      | none => (s, some (fn, url), clean_text)

/-- Form-activation block shared by the audio variants (the first field
prompt is queued as a pending `field_request` instead of being spoken). -/
def activateFormAudio (env : Env) (s : Bridge) (form_name : Option String) :
    Bridge × Option (String × String) :=
  match form_name with
  | none => (s, none)
  | some fn =>
    let url := _get_form_url fn
    if url = "" then (s, none)
    else
      let cr := create_form_session env s.sessions s.user_id fn
      let s := { s with sessions := cr.1 }
      match cr.2 with
      | some session =>
        match session.current_field with
        | some _ =>
          let s := { s with form_session_active := true, awaiting_field_answer := true }
          match session.get_next_field_prompt with
          | some fp =>
            ({ s with pending_requests := s.pending_requests ++ [.fieldRequest (some fp)] },
             some (fn, url))
          | none => (s, some (fn, url))
        | none => (s, some (fn, url))
      | none => (s, some (fn, url))

/-- The question-answered and form-value blocks shared by all consolidated
send paths: keep awaiting an answer after an answered question, and feed
an AI-extracted form value to the form manager. -/
def applyMarkers (env : Env) (s : Bridge) (question_answered : Bool)
    (form_value : Option String) : Step :=
  let s :=
    if question_answered && s.form_session_active then
      { s with awaiting_field_answer := true }
    else s
  match form_value with
  | some fv =>
    if fv ≠ "" && s.form_session_active then
      let r := _process_field_answer env s fv
      (r.1.1, r.1.2)
    else (s, [])
  | none => (s, [])

/-- Embeds `_send_assistant_message`: strip the three markers, handle form
activation / question-answered / form-value, emit the consolidated
`assistant_message`, mark the turn emitted and closed, and drain one
pending request. -/
def _send_assistant_message (env : Env) (s : Bridge) (text : String)
    (message_id : Option String) (event_type : String) : Step :=
  let e1 := _extract_form_from_text text
  let e2 := _extract_form_value_from_text e1.1
  let e3 := _extract_question_answered_from_text e2.1
  let mid :=
    match message_id with
    | some m => if m = "" then env.newUuid else m
    | none => env.newUuid
  let act := activateFormText env s e1.2 e3.1
  let s := act.1
  let r1 := applyMarkers env s e3.2 e2.2
  let s := r1.1
  let payload : FMsg := .assistantMessage mid act.2.2 act.2.1
  let s := { s with response_sent := true, ai_responding := false }
  let r2 := _process_pending_requests env s
  (r2.1, r1.2 ++ [.toFrontend payload] ++ r2.2)

/-- Embeds `_send_assistant_audio_message_with_data`: consolidated audio message
built from the buffered audio deltas and the part transcript. -/
def _send_assistant_audio_message_with_data (env : Env) (s : Bridge)
    (audio_base64 transcript message_id : String) : Step :=
  let e1 := _extract_form_from_text transcript
  let e2 := _extract_form_value_from_text e1.1
  let e3 := _extract_question_answered_from_text e2.1
  let audio_content := _extract_conversational_content_only transcript
  let audio2 := env.prepareAudio audio_base64
  let act := activateFormAudio env s e1.2
  let s := act.1
  let r1 := applyMarkers env s e3.2 e2.2
  let s := r1.1
  let payload : FMsg := .audioMessage message_id audio_content none (some audio2) act.2
  let s := { s with response_sent := true, ai_responding := false }
  let r2 := _process_pending_requests env s
  (r2.1, r1.2 ++ [.toFrontend payload] ++ r2.2)

/-- Embeds `_send_assistant_audio_message`: consolidated audio message built
from an output item; falls back to the text path when the item has no
audio payload, and aborts silently when saving the audio file fails. -/
def _send_assistant_audio_message (env : Env) (s : Bridge) (item : UpItem)
    (event_type : String) : Step :=
  let message_id := item.id.getD env.newUuid
  match _extract_audio_from_output_item item with
  | none =>
    (match _extract_text_from_output_item item with
     | some text => _send_assistant_message env s text (some message_id) "audio_fallback_to_text"
     | none => (s, []))
  | some audio_base64 =>
    if audio_base64 = "" then
      match _extract_text_from_output_item item with
      | some text => _send_assistant_message env s text (some message_id) "audio_fallback_to_text"
      | none => (s, [])
    else
      match env.saveAudio audio_base64 message_id with
      | none => (s, [])
      | some audio_file_path =>
        let text_content := (_extract_text_from_output_item item).getD "Audio response"
        let e1 := _extract_form_from_text text_content
        let e2 := _extract_form_value_from_text e1.1
        let e3 := _extract_question_answered_from_text e2.1
        let audio_content := _extract_conversational_content_only text_content
        let act := activateFormAudio env s e1.2
        let s := act.1
        let r1 := applyMarkers env s e3.2 e2.2
        let s := r1.1
        let payload : FMsg :=
          .audioMessage message_id audio_content (some ("/" ++ audio_file_path)) none act.2
        let s := { s with response_sent := true, ai_responding := false }
        let r2 := _process_pending_requests env s
        (r2.1, r1.2 ++ [.toFrontend payload] ++ r2.2)

/-- The `if/elif` chain of `_handle_event` after the response-identifier
check (text delta, audio delta, item done, content-part done, terminal
completion, ignored events). -/
def handle_event_body (env : Env) (s : Bridge) (e : UpEvent) : Step :=
  if e.etype = "response.output_text.delta" then
    if e.delta ≠ "" then
      ({ s with response_buffer := s.response_buffer ++ [e.delta] },
       [.toFrontend (.assistantDelta e.delta)])
    else (s, [])
  else if e.etype = "response.audio.delta" then
    if e.delta ≠ "" then
      ({ s with audio_buffer := s.audio_buffer ++ [e.delta] },
       [.toFrontend (.assistantAudioDelta e.delta)])
    else (s, [])
  else if e.etype = "response.output_item.done" ∧ s.response_sent = false then
    if _is_audio_output_item e.item then
      _send_assistant_audio_message env s e.item "output_item"
    else
      match _extract_text_from_output_item e.item with
      | some text => _send_assistant_message env s text e.item.id "output_item"
      | none => (s, [])
  else if e.etype = "response.content_part.done" ∧ s.response_sent = false then
    if e.part.ptype = "audio" then
      if s.audio_buffer ≠ [] then
        let audio_base64 := String.join s.audio_buffer
        let transcript := e.part.transcript.getD "Audio response"
        let message_id := e.item_id.getD env.newUuid
        _send_assistant_audio_message_with_data env s audio_base64 transcript message_id
      else
        let transcript := e.part.transcript.getD ""
        if transcript ≠ "" then
          _send_assistant_message env s transcript none "audio_transcript_fallback"
        else (s, [])
    else
      match _extract_text_from_content_part e.part with
      | some text => _send_assistant_message env s text none "content_part_fallback"
      | none => (s, [])
  else if (e.etype = "response.output_text.done" ∨ e.etype = "response.completed"
      ∨ e.etype = "response.done") ∧ s.response_sent = false then
    let r1 :=
      if s.response_buffer ≠ [] then
        _send_assistant_message env { s with response_buffer := [] }
          (String.join s.response_buffer) none "buffered_fallback"
      else (s, [])
    let s1 := r1.1
    if s1.response_sent = false then
      let s2 := { s1 with ai_responding := false }
      let r2 := _process_pending_requests env s2
      (r2.1, r1.2 ++ r2.2)
    else (s1, r1.2)
  else
    (s, [])

/-- Embeds `_handle_event`: an event that carries a truthy response identifier
different from the tracked one resets the tracking for a new turn
(tracked identifier, emitted flag, busy flag, audio buffer — the text
buffer is NOT cleared), then the payload is processed. -/
def handle_event (env : Env) (s : Bridge) (e : UpEvent) : Step :=
  let s :=
    if truthyS e.response_id = true ∧ e.response_id ≠ s.current_response_id then
      { s with current_response_id := e.response_id, response_sent := false,
               ai_responding := true, audio_buffer := [] }
    else s
  handle_event_body env s e

/-- Sequential processing of a list of upstream events by the receiver
loop, concatenating the emitted frames. -/
def processEvents (env : Env) (s : Bridge) : List UpEvent → Bridge × List Out
  | [] => (s, [])
  | e :: es =>
    let r := handle_event env s e
    let r2 := processEvents env r.1 es
    (r2.1, r.2 ++ r2.2)

/-- Is this frame one of the consolidated per-turn client messages? -/
def isConsolidated : Out → Bool
  | .toFrontend (.assistantMessage _ _ _) => true
  | .toFrontend (.audioMessage _ _ _ _ _) => true
  | _ => false

/-- Number of consolidated `assistant_message`/`audio_message` frames. -/
def consolidatedCount : List Out → Nat
  | [] => 0
  | o :: rest => (if isConsolidated o then 1 else 0) + consolidatedCount rest

/-- Number of frames sent upstream. -/
def upstreamCount : List Out → Nat
  | [] => 0
  | .toUpstream _ :: rest => 1 + upstreamCount rest
  | .toFrontend _ :: rest => upstreamCount rest

/-- A transition leaves the emitted flag and the tracked response
identifier unchanged and emits no consolidated message.  Every helper
reachable from the completion paths satisfies this; only the top-level
reset and the consolidated send paths break it. -/
def Quiet (s : Bridge) (r : Step) : Prop :=
  r.1.response_sent = s.response_sent
    ∧ r.1.current_response_id = s.current_response_id
    ∧ consolidatedCount r.2 = 0

/-! ## Concrete fixtures used by witnesses and counterexamples -/

/-- A concrete environment instantiating the external collaborators. -/
def defaultEnv : Env :=
  { floatParse := fun _ => none,
    loadSchema := fun _ => none,
    processAudio := fun a => some a,
    saveAudio := fun _ mid => some ("static/audio/response_" ++ mid ++ ".wav"),
    prepareAudio := fun a => a,
    newUuid := "uuid-0" }

/-- A date-typed field. -/
def dateField0 : FormField :=
  { id := "dob", label := "Date of Birth", ftype := "date", required := true }

/-- An enumerated field (allowed option set, non-text semantic type). -/
def enumField0 : FormField :=
  { id := "loan_category", label := "Loan Category", ftype := "select",
    required := true, options := some ["Shishu", "Kishor"] }

/-- A two-field session whose current field is the enumerated one. -/
def sess0 : FormSession :=
  { form_id := "income", title := "Income", fields := [enumField0, dateField0] }

/-- A store holding `sess0` for user `"u"`. -/
def mgr0 : FormFieldManager := { active_sessions := [("u", sess0)] }

/-- Bridge state with an open prior turn and unflushed text and audio
deltas (for the turn-switch counterexample). -/
def bridge_c4 : Bridge :=
  { user_id := "u", current_response_id := some "resp-old",
    ai_responding := true, response_buffer := ["stale"], audio_buffer := ["snd"] }

/-- Event of a different turn with an otherwise ignored type. -/
def event_c4 : UpEvent := { etype := "unrecognized.event", response_id := some "resp-new" }

/-- Bridge state of a turn that is currently producing audio. -/
def bridge_c5 : Bridge :=
  { user_id := "u", current_response_id := some "resp-1",
    ai_responding := true, audio_buffer := ["QUJD"] }

/-- A text delta arriving for that same audio-bearing turn. -/
def event_c5 : UpEvent :=
  { etype := "response.output_text.delta", response_id := some "resp-1", delta := "hi" }

/-- A fresh bridge for user `"u"`. -/
def bridge0 : Bridge := { user_id := "u" }

/-- An item-completion event for turn `resp-1` carrying a full text item. -/
def event_itemDone : UpEvent :=
  { etype := "response.output_item.done", response_id := some "resp-1",
    item := { itype := "message", role := "assistant", id := some "m1",
              content := [{ ctype := "text", text := "Hello there" }] } }

/-- A terminal completion event for the same turn `resp-1`. -/
def event_done : UpEvent :=
  { etype := "response.done", response_id := some "resp-1" }

/-- A busy bridge with one queued entry (for the queue-discipline witness). -/
def bridge_busy : Bridge :=
  { user_id := "u", ai_responding := true,
    pending_requests := [.systemMessage "earlier"] }

/-- An idle bridge with two queued entries. -/
def bridge_idle : Bridge :=
  { user_id := "u", ai_responding := false,
    pending_requests := [.userTextMessage "first", .systemMessage "second"] }

/-! ## Shared lemmas -/

theorem dictFind_dictSet {α : Type} (k : String) (v : α) (d : List (String × α)) :
    dictFind k (dictSet k v d) = some v := by
  induction d with
  | nil => simp [dictSet, dictFind, List.find?]
  | cons p rest ih =>
    rcases p with ⟨k', v'⟩
    by_cases h : k' = k
    · subst h
      simp [dictSet, dictFind, List.find?]
    · simpa [dictSet, dictFind, List.find?, h] using ih

theorem set_field_value_current (sess : FormSession) (f : FormField) (v : PyVal)
    (hf : sess.current_field = some f) :
    sess.set_field_value f.id v =
      ({ sess with completed_fields := dictSet f.id v sess.completed_fields,
                   current_field_index := sess.current_field_index + 1 }, true) := by
  unfold FormSession.set_field_value
  rw [hf]
  simp

/-! ## C10: totality of `progress_percentage` -/

/-- C10: `progress_percentage` is total: the empty field list yields
exactly `100`, and otherwise the guarded Python division is performed on
a provably nonzero divisor and yields `(current_field_index / field
count) * 100` (exact rational arithmetic models the float formula). -/
theorem progress_percentage_total (s : FormSession) :
    s.progress_percentage =
      some (if s.fields.isEmpty then (100 : Rat)
            else ((s.current_field_index : Rat) / (s.fields.length : Rat)) * 100) := by
  unfold FormSession.progress_percentage pyDiv
  by_cases h : s.fields.isEmpty
  · simp [h]
  · have hlen : s.fields.length ≠ 0 := by
      intro hc
      rw [List.isEmpty_iff_length_eq_zero] at h
      exact h hc
    have hq : ((s.fields.length : Rat)) ≠ 0 := Nat.cast_ne_zero.mpr hlen
    simp [h, hq]

/-! ## C9: the date validator -/

/-- C9: for a date-typed field, a submission is accepted if and only if
the trimmed answer has exactly 10 characters, exactly two hyphens, and
splits on hyphens into three all-digit parts; no calendar check is made
(`9999-99-99` passes) and the four example inputs behave as claimed. -/
theorem date_validation_characterization (env : Env) (f : FormField)
    (h : f.ftype = "date") :
    (∀ ans : String,
      ((_validate_and_convert_value env f ans).isSome = true ↔
        ((pyStrip ans).length = 10 ∧ countChar '-' (pyStrip ans) = 2 ∧
          (pySplitOnChar '-' (pyStrip ans)).length = 3 ∧
          ∀ p ∈ pySplitOnChar '-' (pyStrip ans), pyIsDigit p = true)))
    ∧ _validate_and_convert_value env f "2024-01-05" = some (.s "2024-01-05")
    ∧ _validate_and_convert_value env f "9999-99-99" = some (.s "9999-99-99")
    ∧ _validate_and_convert_value env f "2024-1-5" = none
    ∧ _validate_and_convert_value env f "20240105" = none
    ∧ _validate_and_convert_value env f "not-a-date" = none := by
  have key : ∀ v : String, _validate_and_convert_value env f v =
      (if (pyStrip v).length = 10 ∧ countChar '-' (pyStrip v) = 2 then
        if (pySplitOnChar '-' (pyStrip v)).length = 3
            ∧ (pySplitOnChar '-' (pyStrip v)).all pyIsDigit then
          some (.s (pyStrip v))
        else none
      else none) := by
    intro v
    unfold _validate_and_convert_value
    rw [h]
    simp
  refine ⟨?_, ?_, ?_, ?_, ?_, ?_⟩
  · intro ans
    rw [key ans]
    split_ifs with h1 h2
    · simp only [Option.isSome_some, true_iff]
      exact ⟨h1.1, h1.2, h2.1, by simpa [List.all_eq_true] using h2.2⟩
    · simp only [Option.isSome_none, Bool.false_eq_true, false_iff]
      intro hc
      exact h2 ⟨hc.2.2.1, by simpa [List.all_eq_true] using hc.2.2.2⟩
    · simp only [Option.isSome_none, Bool.false_eq_true, false_iff]
      intro hc
      exact h1 ⟨hc.1, hc.2.1⟩
  · rw [key]; decide
  · rw [key]; decide
  · rw [key]; decide
  · rw [key]; decide
  · rw [key]; decide

/-! ## C8: enumerated (option-set) field matching -/

/-- C8: for a field dispatched to the option branch (semantic type none
of text/number/date/email, non-empty allowed option set), validation
succeeds exactly when the trimmed answer equals some allowed option
ignoring case, and the stored value is an option string in its original
casing (case-insensitively equal to the answer), never the raw casing of
the submission. -/
theorem enumerated_validation_canonical (env : Env) (f : FormField) (opts : List String)
    (h1 : f.ftype ≠ "text") (h2 : f.ftype ≠ "number") (h3 : f.ftype ≠ "date")
    (h4 : f.ftype ≠ "email") (hop : f.options = some opts) (hne : opts ≠ [])
    (ans : String) :
    ((_validate_and_convert_value env f ans).isSome = true ↔
      ∃ o ∈ opts, lowerStr (pyStrip ans) = lowerStr o)
    ∧ (∀ v, _validate_and_convert_value env f ans = some v →
        ∃ o ∈ opts, v = .s o ∧ lowerStr o = lowerStr (pyStrip ans)) := by
  have hemp : opts.isEmpty = false := by
    cases opts with
    | nil => exact absurd rfl hne
    | cons a l => rfl
  have key : _validate_and_convert_value env f ans =
      (if (opts.map lowerStr).contains (lowerStr (pyStrip ans)) then
        match opts.find? (fun o => lowerStr o = lowerStr (pyStrip ans)) with
        | some o => some (.s o)
        | none => none
      else none) := by
    unfold _validate_and_convert_value
    rw [hop]
    simp [if_neg h1, if_neg h2, if_neg h3, if_neg h4, hemp]
  have hcontains : (opts.map lowerStr).contains (lowerStr (pyStrip ans)) = true ↔
      ∃ o ∈ opts, lowerStr (pyStrip ans) = lowerStr o := by
    constructor
    · intro hc
      have : lowerStr (pyStrip ans) ∈ opts.map lowerStr := by
        simpa [List.contains] using hc
      rcases List.mem_map.mp this with ⟨o, ho, he⟩
      exact ⟨o, ho, he.symm⟩
    · intro ⟨o, ho, he⟩
      have : lowerStr (pyStrip ans) ∈ opts.map lowerStr :=
        List.mem_map.mpr ⟨o, ho, he.symm⟩
      simpa [List.contains] using this
  rw [key]
  by_cases hc : (opts.map lowerStr).contains (lowerStr (pyStrip ans)) = true
  · have hex := hcontains.mp hc
    have hfind : (opts.find? (fun o => lowerStr o = lowerStr (pyStrip ans))).isSome = true := by
      rw [List.find?_isSome]
      rcases hex with ⟨o, ho, he⟩
      exact ⟨o, ho, by simpa using he.symm⟩
    rcases Option.isSome_iff_exists.mp hfind with ⟨o, ho⟩
    rw [if_pos hc, ho]
    constructor
    · simpa using hex
    · intro v hv
      have hmem := List.mem_of_find?_eq_some ho
      have hprop : lowerStr o = lowerStr (pyStrip ans) := by
        have := List.find?_some ho
        simpa using this
      exact ⟨o, hmem, by simpa using hv.symm, hprop⟩
  · rw [if_neg hc]
    constructor
    · constructor
      · intro hfalse
        simp at hfalse
      · intro hex
        exact absurd (hcontains.mpr hex) hc
    · intro v hv
      simp at hv

/-! ## C2: cursor advances only on successful validation -/

/-- C2: when the current field's validator rejects the submission,
`process_user_answer` returns the structured error (success `false`,
field id, label and reason) and the store — session, cursor and
`completed_fields` — is returned unchanged; when the validator accepts,
success is reported and the stored session has the cursor advanced by
exactly one with the coerced value recorded. -/
theorem process_user_answer_cursor (env : Env) (m : FormFieldManager)
    (user answer : String) (sess : FormSession) (f : FormField)
    (hs : get_active_session m user = some sess)
    (hf : sess.current_field = some f) :
    (_validate_and_convert_value env f answer = none →
      process_user_answer env m user answer =
        (m, { success := false,
              error := some ("Invalid value for " ++ f.label ++ ". Expected "
                ++ f.ftype ++ "."),
              errField := some { id := f.id, label := f.label, ftype := f.ftype } }))
    ∧ (∀ v, _validate_and_convert_value env f answer = some v →
        (process_user_answer env m user answer).2.success = true
        ∧ get_active_session (process_user_answer env m user answer).1 user =
            some { sess with
              current_field_index := sess.current_field_index + 1,
              completed_fields := dictSet f.id v sess.completed_fields }) := by
  constructor
  · intro hv
    simp only [process_user_answer, hs, hf, hv]
  · intro v hv
    have hset := set_field_value_current sess f v hf
    simp only [process_user_answer, hs, hf, hv, hset]
    constructor
    · split
      · split <;> rfl
      · rfl
    · unfold get_active_session
      split
      · split <;> simp [dictFind_dictSet]
      · simp [dictFind_dictSet]

/-! ## Bridge helper lemmas

The completion helpers never emit a consolidated frontend message and
never touch the emitted flag or the tracked response identifier; the
consolidated send paths emit exactly one and set the emitted flag. -/

theorem consolidatedCount_append (a b : List Out) :
    consolidatedCount (a ++ b) = consolidatedCount a + consolidatedCount b := by
  induction a with
  | nil => simp [consolidatedCount]
  | cons o rest ih => simp [consolidatedCount, ih]; omega

theorem send_system_message_sent (s : Bridge) (c : String) :
    (send_system_message s c).1.response_sent = s.response_sent := by
  unfold send_system_message; split <;> rfl

theorem send_system_message_current (s : Bridge) (c : String) :
    (send_system_message s c).1.current_response_id = s.current_response_id := by
  unfold send_system_message; split <;> rfl

theorem send_system_message_count (s : Bridge) (c : String) :
    consolidatedCount (send_system_message s c).2 = 0 := by
  unfold send_system_message; split <;> rfl

theorem send_system_message_active (s : Bridge) (c : String) :
    (send_system_message s c).1.form_session_active = s.form_session_active := by
  unfold send_system_message; split <;> rfl

theorem send_system_message_pending_not_busy (s : Bridge) (c : String)
    (h : s.ai_responding = false) :
    (send_system_message s c).1.pending_requests = s.pending_requests := by
  unfold send_system_message; rw [h]; rfl

theorem send_user_message_sent (s : Bridge) (c : String) :
    (send_user_message s c).1.response_sent = s.response_sent := by
  unfold send_user_message; split <;> rfl

theorem send_user_message_current (s : Bridge) (c : String) :
    (send_user_message s c).1.current_response_id = s.current_response_id := by
  unfold send_user_message; split <;> rfl

theorem send_user_message_count (s : Bridge) (c : String) :
    consolidatedCount (send_user_message s c).2 = 0 := by
  unfold send_user_message; split <;> rfl

theorem send_user_message_active (s : Bridge) (c : String) :
    (send_user_message s c).1.form_session_active = s.form_session_active := by
  unfold send_user_message; split <;> rfl

theorem send_user_message_pending_not_busy (s : Bridge) (c : String)
    (h : s.ai_responding = false) :
    (send_user_message s c).1.pending_requests = s.pending_requests := by
  unfold send_user_message; rw [h]; rfl

theorem send_user_audio_message_sent (env : Env) (s : Bridge) (a : String) :
    (send_user_audio_message env s a).1.response_sent = s.response_sent := by
  unfold send_user_audio_message; repeat' split
  all_goals rfl

theorem send_user_audio_message_current (env : Env) (s : Bridge) (a : String) :
    (send_user_audio_message env s a).1.current_response_id = s.current_response_id := by
  unfold send_user_audio_message; repeat' split
  all_goals rfl

theorem send_user_audio_message_count (env : Env) (s : Bridge) (a : String) :
    consolidatedCount (send_user_audio_message env s a).2 = 0 := by
  unfold send_user_audio_message; repeat' split
  all_goals rfl

theorem send_user_audio_message_active (env : Env) (s : Bridge) (a : String) :
    (send_user_audio_message env s a).1.form_session_active = s.form_session_active := by
  unfold send_user_audio_message; repeat' split
  all_goals rfl

theorem send_user_audio_message_pending_not_busy (env : Env) (s : Bridge) (a : String)
    (h : s.ai_responding = false) :
    (send_user_audio_message env s a).1.pending_requests = s.pending_requests := by
  unfold send_user_audio_message; rw [h]
  simp only [Bool.false_eq_true, if_false]
  split <;> rfl

theorem ask_for_next_field_sent (s : Bridge) :
    (_ask_for_next_field s).1.response_sent = s.response_sent := by
  unfold _ask_for_next_field
  repeat' split
  all_goals first
  | rfl
  | simp [send_system_message_sent]

theorem ask_for_next_field_current (s : Bridge) :
    (_ask_for_next_field s).1.current_response_id = s.current_response_id := by
  unfold _ask_for_next_field
  repeat' split
  all_goals first
  | rfl
  | simp [send_system_message_current]

theorem ask_for_next_field_count (s : Bridge) :
    consolidatedCount (_ask_for_next_field s).2 = 0 := by
  unfold _ask_for_next_field
  repeat' split
  all_goals first
  | rfl
  | simp [consolidatedCount, isConsolidated, send_system_message_count]

theorem ask_for_next_field_active (s : Bridge) :
    (_ask_for_next_field s).1.form_session_active = s.form_session_active := by
  unfold _ask_for_next_field
  repeat' split
  all_goals first
  | rfl
  | simp [send_system_message_active]

theorem ask_for_next_field_pending_not_busy (s : Bridge) (h : s.ai_responding = false) :
    (_ask_for_next_field s).1.pending_requests = s.pending_requests := by
  unfold _ask_for_next_field; rw [h]
  simp only [Bool.false_eq_true, if_false]
  repeat' split
  all_goals first
  | rfl
  | simp [send_system_message_pending_not_busy _ _ h]

theorem ask_with_ack_sent (s : Bridge) (v l : String) :
    (_ask_for_next_field_with_acknowledgment s v l).1.response_sent = s.response_sent := by
  unfold _ask_for_next_field_with_acknowledgment
  repeat' split
  all_goals first
  | rfl
  | simp [send_system_message_sent]

theorem ask_with_ack_current (s : Bridge) (v l : String) :
    (_ask_for_next_field_with_acknowledgment s v l).1.current_response_id
      = s.current_response_id := by
  unfold _ask_for_next_field_with_acknowledgment
  repeat' split
  all_goals first
  | rfl
  | simp [send_system_message_current]

theorem ask_with_ack_count (s : Bridge) (v l : String) :
    consolidatedCount (_ask_for_next_field_with_acknowledgment s v l).2 = 0 := by
  unfold _ask_for_next_field_with_acknowledgment
  repeat' split
  all_goals first
  | rfl
  | simp [consolidatedCount, isConsolidated, send_system_message_count]

theorem ask_with_ack_active (s : Bridge) (v l : String) :
    (_ask_for_next_field_with_acknowledgment s v l).1.form_session_active
      = s.form_session_active := by
  unfold _ask_for_next_field_with_acknowledgment
  repeat' split
  all_goals first
  | rfl
  | simp [send_system_message_active]

theorem ask_with_ack_pending_not_busy (s : Bridge) (v l : String)
    (h : s.ai_responding = false) :
    (_ask_for_next_field_with_acknowledgment s v l).1.pending_requests
      = s.pending_requests := by
  unfold _ask_for_next_field_with_acknowledgment; rw [h]
  simp only [Bool.false_eq_true, if_false]
  repeat' split
  all_goals first
  | rfl
  | simp [send_system_message_pending_not_busy _ _ h]

theorem dispatchRequest_sent (env : Env) (s : Bridge) (r : PendingRequest) :
    (dispatchRequest env s r).1.response_sent = s.response_sent := by
  cases r with
  | fieldRequest fp =>
    cases fp <;>
      simp [dispatchRequest, send_system_message_sent, ask_for_next_field_sent]
  | fieldRequestWithAck v l => simp [dispatchRequest, ask_with_ack_sent]
  | systemMessage c => simp [dispatchRequest, send_system_message_sent]
  | userAudioMessage a => simp [dispatchRequest, send_user_audio_message_sent]
  | userTextMessage c => simp [dispatchRequest, send_user_message_sent]

theorem dispatchRequest_current (env : Env) (s : Bridge) (r : PendingRequest) :
    (dispatchRequest env s r).1.current_response_id = s.current_response_id := by
  cases r with
  | fieldRequest fp =>
    cases fp <;>
      simp [dispatchRequest, send_system_message_current, ask_for_next_field_current]
  | fieldRequestWithAck v l => simp [dispatchRequest, ask_with_ack_current]
  | systemMessage c => simp [dispatchRequest, send_system_message_current]
  | userAudioMessage a => simp [dispatchRequest, send_user_audio_message_current]
  | userTextMessage c => simp [dispatchRequest, send_user_message_current]

theorem dispatchRequest_count (env : Env) (s : Bridge) (r : PendingRequest) :
    consolidatedCount (dispatchRequest env s r).2 = 0 := by
  cases r with
  | fieldRequest fp =>
    cases fp <;>
      simp [dispatchRequest, send_system_message_count, ask_for_next_field_count]
  | fieldRequestWithAck v l => simp [dispatchRequest, ask_with_ack_count]
  | systemMessage c => simp [dispatchRequest, send_system_message_count]
  | userAudioMessage a => simp [dispatchRequest, send_user_audio_message_count]
  | userTextMessage c => simp [dispatchRequest, send_user_message_count]

theorem dispatchRequest_active (env : Env) (s : Bridge) (r : PendingRequest) :
    (dispatchRequest env s r).1.form_session_active = s.form_session_active := by
  cases r with
  | fieldRequest fp =>
    cases fp <;>
      simp [dispatchRequest, send_system_message_active, ask_for_next_field_active]
  | fieldRequestWithAck v l => simp [dispatchRequest, ask_with_ack_active]
  | systemMessage c => simp [dispatchRequest, send_system_message_active]
  | userAudioMessage a => simp [dispatchRequest, send_user_audio_message_active]
  | userTextMessage c => simp [dispatchRequest, send_user_message_active]

theorem dispatchRequest_pending_not_busy (env : Env) (s : Bridge) (r : PendingRequest)
    (h : s.ai_responding = false) :
    (dispatchRequest env s r).1.pending_requests = s.pending_requests := by
  cases r with
  | fieldRequest fp =>
    cases fp <;>
      simp [dispatchRequest, send_system_message_pending_not_busy _ _ h,
        ask_for_next_field_pending_not_busy _ h]
  | fieldRequestWithAck v l =>
    simp [dispatchRequest, ask_with_ack_pending_not_busy _ _ _ h]
  | systemMessage c => simp [dispatchRequest, send_system_message_pending_not_busy _ _ h]
  | userAudioMessage a =>
    simp [dispatchRequest, send_user_audio_message_pending_not_busy _ _ _ h]
  | userTextMessage c => simp [dispatchRequest, send_user_message_pending_not_busy _ _ h]

theorem process_pending_sent (env : Env) (s : Bridge) :
    (_process_pending_requests env s).1.response_sent = s.response_sent := by
  unfold _process_pending_requests
  repeat' split
  all_goals first
  | rfl
  | simp [dispatchRequest_sent]

theorem process_pending_current (env : Env) (s : Bridge) :
    (_process_pending_requests env s).1.current_response_id = s.current_response_id := by
  unfold _process_pending_requests
  repeat' split
  all_goals first
  | rfl
  | simp [dispatchRequest_current]

theorem process_pending_count (env : Env) (s : Bridge) :
    consolidatedCount (_process_pending_requests env s).2 = 0 := by
  unfold _process_pending_requests
  repeat' split
  all_goals first
  | rfl
  | simp [consolidatedCount, dispatchRequest_count]

theorem process_pending_active (env : Env) (s : Bridge) :
    (_process_pending_requests env s).1.form_session_active = s.form_session_active := by
  unfold _process_pending_requests
  repeat' split
  all_goals first
  | rfl
  | simp [dispatchRequest_active]

theorem process_field_answer_sent (env : Env) (s : Bridge) (a : String) :
    (_process_field_answer env s a).1.1.response_sent = s.response_sent := by
  simp only [_process_field_answer]
  repeat' split
  all_goals first
  | rfl
  | simp [send_system_message_sent, ask_for_next_field_sent]

theorem process_field_answer_current (env : Env) (s : Bridge) (a : String) :
    (_process_field_answer env s a).1.1.current_response_id = s.current_response_id := by
  simp only [_process_field_answer]
  repeat' split
  all_goals first
  | rfl
  | simp [send_system_message_current, ask_for_next_field_current]

theorem process_field_answer_count (env : Env) (s : Bridge) (a : String) :
    consolidatedCount (_process_field_answer env s a).1.2 = 0 := by
  simp only [_process_field_answer]
  repeat' split
  all_goals first
  | rfl
  | simp [consolidatedCount, isConsolidated, send_system_message_count,
      ask_for_next_field_count]

theorem process_field_answer_active (env : Env) (s : Bridge) (a : String)
    (h : (_process_field_answer env s a).1.1.form_session_active = true) :
    s.form_session_active = true := by
  revert h
  simp only [_process_field_answer]
  repeat' split
  all_goals intro h
  all_goals first
  | exact h
  | simpa [send_system_message_active, ask_for_next_field_active] using h
  | simp_all

theorem applyMarkers_sent (env : Env) (s : Bridge) (q : Bool) (fv : Option String) :
    (applyMarkers env s q fv).1.response_sent = s.response_sent := by
  simp only [applyMarkers]
  repeat' split
  all_goals first
  | rfl
  | simp [process_field_answer_sent]

theorem applyMarkers_current (env : Env) (s : Bridge) (q : Bool) (fv : Option String) :
    (applyMarkers env s q fv).1.current_response_id = s.current_response_id := by
  simp only [applyMarkers]
  repeat' split
  all_goals first
  | rfl
  | simp [process_field_answer_current]

theorem applyMarkers_count (env : Env) (s : Bridge) (q : Bool) (fv : Option String) :
    consolidatedCount (applyMarkers env s q fv).2 = 0 := by
  simp only [applyMarkers]
  repeat' split
  all_goals first
  | rfl
  | simp [consolidatedCount, process_field_answer_count]

theorem applyMarkers_active (env : Env) (s : Bridge) (q : Bool) (fv : Option String)
    (h : (applyMarkers env s q fv).1.form_session_active = true) :
    s.form_session_active = true := by
  revert h
  simp only [applyMarkers]
  repeat' split
  all_goals intro h
  all_goals first
  | exact h
  | exact process_field_answer_active _ _ _ h
  | simp_all [process_field_answer_active]

theorem activateFormText_sent (env : Env) (s : Bridge) (fn : Option String) (ct : String) :
    (activateFormText env s fn ct).1.response_sent = s.response_sent := by
  simp only [activateFormText]
  repeat' split
  all_goals rfl

theorem activateFormText_current (env : Env) (s : Bridge) (fn : Option String) (ct : String) :
    (activateFormText env s fn ct).1.current_response_id = s.current_response_id := by
  simp only [activateFormText]
  repeat' split
  all_goals rfl

theorem activateFormAudio_sent (env : Env) (s : Bridge) (fn : Option String) :
    (activateFormAudio env s fn).1.response_sent = s.response_sent := by
  simp only [activateFormAudio]
  repeat' split
  all_goals rfl

theorem activateFormAudio_current (env : Env) (s : Bridge) (fn : Option String) :
    (activateFormAudio env s fn).1.current_response_id = s.current_response_id := by
  simp only [activateFormAudio]
  repeat' split
  all_goals rfl

theorem send_assistant_message_sent (env : Env) (s : Bridge) (text : String)
    (mid : Option String) (et : String) :
    (_send_assistant_message env s text mid et).1.response_sent = true := by
  simp only [_send_assistant_message]
  simp [process_pending_sent]

theorem send_assistant_message_current (env : Env) (s : Bridge) (text : String)
    (mid : Option String) (et : String) :
    (_send_assistant_message env s text mid et).1.current_response_id
      = s.current_response_id := by
  simp only [_send_assistant_message]
  simp [process_pending_current, applyMarkers_current, activateFormText_current]

theorem send_assistant_message_count (env : Env) (s : Bridge) (text : String)
    (mid : Option String) (et : String) :
    consolidatedCount (_send_assistant_message env s text mid et).2 = 1 := by
  simp only [_send_assistant_message]
  simp [consolidatedCount_append, consolidatedCount, isConsolidated,
    applyMarkers_count, process_pending_count]

theorem send_audio_with_data_sent (env : Env) (s : Bridge) (a t m : String) :
    (_send_assistant_audio_message_with_data env s a t m).1.response_sent = true := by
  simp only [_send_assistant_audio_message_with_data]
  simp [process_pending_sent]

theorem send_audio_with_data_current (env : Env) (s : Bridge) (a t m : String) :
    (_send_assistant_audio_message_with_data env s a t m).1.current_response_id
      = s.current_response_id := by
  simp only [_send_assistant_audio_message_with_data]
  simp [process_pending_current, applyMarkers_current, activateFormAudio_current]

theorem send_audio_with_data_count (env : Env) (s : Bridge) (a t m : String) :
    consolidatedCount (_send_assistant_audio_message_with_data env s a t m).2 = 1 := by
  simp only [_send_assistant_audio_message_with_data]
  simp [consolidatedCount_append, consolidatedCount, isConsolidated,
    applyMarkers_count, process_pending_count]

theorem send_assistant_audio_message_count_le (env : Env) (s : Bridge) (item : UpItem)
    (et : String) :
    consolidatedCount (_send_assistant_audio_message env s item et).2 ≤ 1 := by
  simp only [_send_assistant_audio_message]
  repeat' split
  all_goals simp [consolidatedCount_append, consolidatedCount, isConsolidated,
    send_assistant_message_count, applyMarkers_count, process_pending_count]

theorem send_assistant_audio_message_emit_sent (env : Env) (s : Bridge) (item : UpItem)
    (et : String)
    (h : consolidatedCount (_send_assistant_audio_message env s item et).2 ≠ 0) :
    (_send_assistant_audio_message env s item et).1.response_sent = true := by
  revert h
  simp only [_send_assistant_audio_message]
  repeat' split
  all_goals intro h
  all_goals simp_all [consolidatedCount_append, consolidatedCount, isConsolidated,
    send_assistant_message_sent, applyMarkers_count, process_pending_count,
    process_pending_sent]

theorem send_assistant_audio_message_current (env : Env) (s : Bridge) (item : UpItem)
    (et : String) :
    (_send_assistant_audio_message env s item et).1.current_response_id
      = s.current_response_id := by
  simp only [_send_assistant_audio_message]
  repeat' split
  all_goals simp [send_assistant_message_current, process_pending_current,
    applyMarkers_current, activateFormAudio_current]

theorem handle_event_body_current (env : Env) (s : Bridge) (e : UpEvent) :
    (handle_event_body env s e).1.current_response_id = s.current_response_id := by
  simp only [handle_event_body]
  repeat' split
  all_goals simp [send_assistant_message_current, send_assistant_audio_message_current,
    send_audio_with_data_current, process_pending_current]

theorem handle_event_body_count_le (env : Env) (s : Bridge) (e : UpEvent) :
    consolidatedCount (handle_event_body env s e).2 ≤ 1 := by
  simp only [handle_event_body]
  repeat' split
  all_goals first
  | exact send_assistant_audio_message_count_le env s e.item "output_item"
  | simp [consolidatedCount_append, consolidatedCount, isConsolidated,
      send_assistant_message_count, send_audio_with_data_count, process_pending_count]

theorem handle_event_body_emit_sent (env : Env) (s : Bridge) (e : UpEvent)
    (h : consolidatedCount (handle_event_body env s e).2 ≠ 0) :
    (handle_event_body env s e).1.response_sent = true := by
  revert h
  simp only [handle_event_body]
  repeat' split
  all_goals intro h
  all_goals first
  | exact send_assistant_audio_message_emit_sent env s e.item "output_item" h
  | simp_all [consolidatedCount_append, consolidatedCount, isConsolidated,
      send_assistant_message_sent, send_assistant_message_count, send_audio_with_data_sent,
      process_pending_count, process_pending_sent]

theorem handle_event_body_sent_true (env : Env) (s : Bridge) (e : UpEvent)
    (hs : s.response_sent = true) :
    (handle_event_body env s e).1.response_sent = true
      ∧ consolidatedCount (handle_event_body env s e).2 = 0 := by
  simp only [handle_event_body, hs]
  repeat' split
  all_goals simp_all [consolidatedCount, isConsolidated]

theorem handle_event_current (env : Env) (s : Bridge) (e : UpEvent) :
    (handle_event env s e).1.current_response_id =
      (if truthyS e.response_id = true ∧ e.response_id ≠ s.current_response_id
       then e.response_id else s.current_response_id) := by
  simp only [handle_event]
  split
  all_goals simp_all [handle_event_body_current]

theorem handle_event_count_le (env : Env) (s : Bridge) (e : UpEvent) :
    consolidatedCount (handle_event env s e).2 ≤ 1 := by
  simp only [handle_event]
  split
  all_goals apply handle_event_body_count_le

theorem handle_event_emit_sent (env : Env) (s : Bridge) (e : UpEvent)
    (h : consolidatedCount (handle_event env s e).2 ≠ 0) :
    (handle_event env s e).1.response_sent = true := by
  revert h
  simp only [handle_event]
  split
  all_goals intro h
  all_goals exact handle_event_body_emit_sent env _ e h

theorem handle_event_noreset_sent (env : Env) (s : Bridge) (e : UpEvent)
    (hnr : ¬(truthyS e.response_id = true ∧ e.response_id ≠ s.current_response_id))
    (hs : s.response_sent = true) :
    (handle_event env s e).1.response_sent = true
      ∧ consolidatedCount (handle_event env s e).2 = 0 := by
  simp only [handle_event]
  rw [if_neg hnr]
  exact handle_event_body_sent_true env s e hs

theorem processEvents_sent_zero (env : Env) (r : String) (evts : List UpEvent) :
    ∀ s : Bridge, (∀ e ∈ evts, e.response_id = some r) →
    s.response_sent = true → (s.current_response_id = some r ∨ r = "") →
    consolidatedCount (processEvents env s evts).2 = 0 := by
  induction evts with
  | nil => intro s _ _ _; simp [processEvents, consolidatedCount]
  | cons e es ih =>
    intro s hid hsent hok
    have he : e.response_id = some r := hid e (by simp)
    have hid' : ∀ x ∈ es, x.response_id = some r := fun x hx => hid x (by simp [hx])
    have hnr : ¬(truthyS e.response_id = true ∧ e.response_id ≠ s.current_response_id) := by
      rcases hok with hcur | hemp
      · intro hc
        exact hc.2 (by rw [he, hcur])
      · intro hc
        rw [he, hemp] at hc
        simp [truthyS] at hc
    have hstep := handle_event_noreset_sent env s e hnr hsent
    have hcur1 : (handle_event env s e).1.current_response_id = some r ∨ r = "" := by
      rcases hok with hcur | hemp
      · left
        rw [handle_event_current, if_neg hnr, hcur]
      · right; exact hemp
    simp only [processEvents, consolidatedCount_append, hstep.2]
    simpa using ih (handle_event env s e).1 hid' hstep.1 hcur1

/-! ## C1: at most one consolidated message per turn identifier -/

/-- C1: for any starting bridge state and any sequence of upstream events
all carrying one and the same response identifier, processing the
sequence emits at most one consolidated `assistant_message`/`audio_message`
frame — in particular no duplicate arises when both an item-completion
(`response.output_item.done` / `response.content_part.done`) and a
terminal completion (`response.done` / `response.completed` /
`response.output_text.done`) arrive, because every emission path is
guarded by the `_response_sent` flag, every emission sets it, and only an
event of a different turn clears it. -/
theorem at_most_one_consolidated_per_turn (env : Env) (s : Bridge) (r : String)
    (evts : List UpEvent) (hid : ∀ e ∈ evts, e.response_id = some r) :
    consolidatedCount (processEvents env s evts).2 ≤ 1 := by
  induction evts generalizing s with
  | nil => simp [processEvents, consolidatedCount]
  | cons e es ih =>
    have he : e.response_id = some r := hid e (by simp)
    have hid' : ∀ x ∈ es, x.response_id = some r := fun x hx => hid x (by simp [hx])
    have hcle := handle_event_count_le env s e
    simp only [processEvents, consolidatedCount_append]
    by_cases hz : consolidatedCount (handle_event env s e).2 = 0
    · rw [hz]
      simpa using ih (handle_event env s e).1 hid'
    · have hsent := handle_event_emit_sent env s e hz
      have hcur : (handle_event env s e).1.current_response_id = some r ∨ r = "" := by
        have hc := handle_event_current env s e
        by_cases hcond : truthyS e.response_id = true ∧ e.response_id ≠ s.current_response_id
        · left
          rw [hc, if_pos hcond, he]
        · rcases not_and_or.mp hcond with h1 | h2
          · right
            rw [he] at h1
            simpa [truthyS] using h1
          · left
            have h3 : e.response_id = s.current_response_id := not_not.mp h2
            rw [hc, if_neg hcond, ← h3, he]
      have hrest := processEvents_sent_zero env r es (handle_event env s e).1 hid' hsent hcur
      rw [hrest]
      omega

/-- Witness for C1: a full text item-completion followed by a terminal
completion for the same turn `resp-1`. -/
theorem at_most_one_consolidated_per_turn_witness :
    (∀ e ∈ [event_itemDone, event_done], e.response_id = some "resp-1")
    ∧ consolidatedCount (processEvents defaultEnv bridge0 [event_itemDone, event_done]).2 ≤ 1 :=
  ⟨by decide,
   at_most_one_consolidated_per_turn defaultEnv bridge0 "resp-1"
     [event_itemDone, event_done] (by decide)⟩

/-! ## C3: busy sends are queued; FIFO drain of one entry per turn -/

/-- C3: while `ai_responding` is true every user-text, user-audio and
system send performs no upstream (or frontend) output and just appends
its request to the pending queue; when a turn completes (queue nonempty,
`ai_responding` false) the drain pops exactly the oldest entry, executes
it, and leaves the rest of the queue intact and in order; while a turn
is still open the drain does nothing. -/
theorem busy_sends_queue_and_fifo_drain (env : Env) (s : Bridge) :
    (∀ content audio_data sysc : String, s.ai_responding = true →
      send_user_message s content
          = ({ s with pending_requests := s.pending_requests ++ [.userTextMessage content] }, [])
        ∧ send_user_audio_message env s audio_data
          = ({ s with pending_requests := s.pending_requests ++ [.userAudioMessage audio_data] }, [])
        ∧ send_system_message s sysc
          = ({ s with pending_requests := s.pending_requests ++ [.systemMessage sysc] }, []))
    ∧ (∀ (r : PendingRequest) (rest : List PendingRequest),
        s.ai_responding = false → s.pending_requests = r :: rest →
        _process_pending_requests env s
            = dispatchRequest env { s with pending_requests := rest } r
          ∧ (_process_pending_requests env s).1.pending_requests = rest)
    ∧ (s.ai_responding = true → _process_pending_requests env s = (s, [])) := by
  refine ⟨?_, ?_, ?_⟩
  · intro content audio_data sysc h
    refine ⟨?_, ?_, ?_⟩ <;>
      simp [send_user_message, send_user_audio_message, send_system_message, h]
  · intro r rest h hq
    have hpop : _process_pending_requests env s
        = dispatchRequest env { s with pending_requests := rest } r := by
      simp only [_process_pending_requests, hq]
      rw [if_neg (by simp [h])]
    refine ⟨hpop, ?_⟩
    rw [hpop, dispatchRequest_pending_not_busy env _ r (by simpa using h)]
  · intro h
    simp only [_process_pending_requests]
    split
    · rfl
    · rw [if_pos h]

/-- Witness for C3: a busy bridge queues a user text message verbatim;
an idle bridge with two queued entries pops exactly the oldest. -/
theorem busy_sends_queue_and_fifo_drain_witness :
    (bridge_busy.ai_responding = true
      ∧ send_user_message bridge_busy "hello"
          = ({ bridge_busy with
                pending_requests := bridge_busy.pending_requests
                  ++ [.userTextMessage "hello"] }, []))
    ∧ (bridge_idle.ai_responding = false
      ∧ bridge_idle.pending_requests
          = .userTextMessage "first" :: [.systemMessage "second"]
      ∧ (_process_pending_requests defaultEnv bridge_idle).1.pending_requests
          = [.systemMessage "second"]) :=
  ⟨⟨rfl, ((busy_sends_queue_and_fifo_drain defaultEnv bridge_busy).1 "hello" "x" "y" rfl).1⟩,
   rfl, rfl,
   ((busy_sends_queue_and_fifo_drain defaultEnv bridge_idle).2.1
      (.userTextMessage "first") [.systemMessage "second"] rfl rfl).2⟩

/-! ## C4: what the new-turn reset actually clears -/

/-- C4 is refuted at a concrete input: an event of a different turn
arriving while text deltas are buffered leaves the text buffer intact
(`["stale"]`), although the claim says both buffers are reset; the audio
buffer, the emitted flag and the busy flag are indeed reset. -/
theorem new_turn_reset_counterexample :
    truthyS event_c4.response_id = true
    ∧ event_c4.response_id ≠ bridge_c4.current_response_id
    ∧ bridge_c4.response_buffer = ["stale"]
    ∧ (handle_event defaultEnv bridge_c4 event_c4).1.response_buffer = ["stale"]
    ∧ (handle_event defaultEnv bridge_c4 event_c4).1.audio_buffer = []
    ∧ (handle_event defaultEnv bridge_c4 event_c4).1.response_sent = false
    ∧ (handle_event defaultEnv bridge_c4 event_c4).1.ai_responding = true := by
  decide

/-- C4 amended: an event carrying a truthy response identifier different
from the tracked one starts a new turn before its payload is processed:
it updates the tracked identifier, clears the emitted flag, sets
`ai_responding`, and resets the audio buffer only — the text buffer is
retained (it is flushed or cleared elsewhere). -/
theorem new_turn_reset_amended (env : Env) (s : Bridge) (e : UpEvent)
    (h1 : truthyS e.response_id = true) (h2 : e.response_id ≠ s.current_response_id) :
    handle_event env s e = handle_event_body env
      { s with current_response_id := e.response_id, response_sent := false,
               ai_responding := true, audio_buffer := [] } e := by
  simp only [handle_event]
  rw [if_pos ⟨h1, h2⟩]

/-- Witness for the amended C4. -/
theorem new_turn_reset_amended_witness :
    truthyS event_c4.response_id = true
    ∧ event_c4.response_id ≠ bridge_c4.current_response_id
    ∧ handle_event defaultEnv bridge_c4 event_c4 = handle_event_body defaultEnv
        { bridge_c4 with
            current_response_id := event_c4.response_id,
            response_sent := false, ai_responding := true, audio_buffer := [] } event_c4 :=
  ⟨by decide, by decide,
   new_turn_reset_amended defaultEnv bridge_c4 event_c4 (by decide) (by decide)⟩

/-! ## C5: text deltas are never suppressed during audio -/

/-- C5 is refuted at a concrete input: while the turn is receiving audio
(`audio_buffer` nonempty) a text delta is still forwarded to the client
as an incremental `assistant_delta` update — there is no receiving-audio
suppression in the code. -/
theorem text_delta_no_suppression_counterexample :
    bridge_c5.audio_buffer ≠ []
    ∧ (handle_event defaultEnv bridge_c5 event_c5).2
        = [Out.toFrontend (FMsg.assistantDelta "hi")]
    ∧ (handle_event defaultEnv bridge_c5 event_c5).1.response_buffer = ["hi"] := by
  decide

/-- C5 amended: every text-delta event of the tracked turn with a
nonempty delta appends the delta to the text buffer and forwards it
immediately as an `assistant_delta` update, unconditionally — whether or
not audio is concurrently being received; an empty delta does nothing. -/
theorem text_delta_always_forwarded (env : Env) (s : Bridge) (e : UpEvent)
    (het : e.etype = "response.output_text.delta")
    (hnr : ¬(truthyS e.response_id = true ∧ e.response_id ≠ s.current_response_id)) :
    (e.delta ≠ "" → handle_event env s e
        = ({ s with response_buffer := s.response_buffer ++ [e.delta] },
           [Out.toFrontend (FMsg.assistantDelta e.delta)]))
    ∧ (e.delta = "" → handle_event env s e = (s, [])) := by
  constructor
  · intro hd
    simp only [handle_event]
    rw [if_neg hnr]
    simp [handle_event_body, het, hd]
  · intro hd
    simp only [handle_event]
    rw [if_neg hnr]
    simp [handle_event_body, het, hd]

/-- Witness for the amended C5 (the delta is forwarded even though the
audio buffer is nonempty). -/
theorem text_delta_always_forwarded_witness :
    event_c5.etype = "response.output_text.delta"
    ∧ bridge_c5.audio_buffer ≠ []
    ∧ handle_event defaultEnv bridge_c5 event_c5
        = ({ bridge_c5 with response_buffer := bridge_c5.response_buffer ++ ["hi"] },
           [Out.toFrontend (FMsg.assistantDelta "hi")]) :=
  ⟨rfl, by decide,
   (text_delta_always_forwarded defaultEnv bridge_c5 event_c5 rfl (by decide)).1 (by decide)⟩

/-! ## C6: there is no keyword fallback in the codec -/

/-- C6 is refuted at concrete inputs: assistant texts containing the
domain trigger words ("aadhaar", "mudra loan") but no `##FORM:...##`
marker yield no inferred form name from `_extract_form_from_text`, and
the consolidated send path emits the message with no form attached — the
trigger-word lists live only in the AI system prompt, not in the code. -/
theorem keyword_fallback_counterexample :
    _extract_form_from_text "I want to update my aadhaar card"
        = ("I want to update my aadhaar card", none)
    ∧ _extract_form_from_text "I need a mudra loan" = ("I need a mudra loan", none)
    ∧ (_send_assistant_message defaultEnv bridge0 "I need a mudra loan" none "").2
        = [Out.toFrontend (FMsg.assistantMessage "uuid-0" "I need a mudra loan" none)] := by
  refine ⟨by decide, by decide, by decide⟩

/-- C6 amended: when no form-activation marker is present the codec
performs no keyword scan: it infers no form name and returns the text
unchanged, and consequently processing such a text through
`_send_assistant_message` never activates a form session
(`_form_session_active` can only have been true already). -/
theorem no_marker_no_form_activation (t : String) (h : hasFormMarker t = false) :
    _extract_form_from_text t = (t, none)
    ∧ ∀ (env : Env) (s : Bridge) (mid : Option String) (et : String),
        (_send_assistant_message env s t mid et).1.form_session_active = true →
          s.form_session_active = true := by
  have hs : searchFirst matchFormAt t.toList = none := by
    cases hq : searchFirst matchFormAt t.toList with
    | none => rfl
    | some g =>
      unfold hasFormMarker at h
      rw [hq] at h
      simp at h
  have hfirst : _extract_form_from_text t = (t, none) := by
    unfold _extract_form_from_text
    rw [hs]
  refine ⟨hfirst, ?_⟩
  intro env s mid et hact
  simp only [_send_assistant_message, hfirst] at hact
  simp only [activateFormText] at hact
  rw [process_pending_active] at hact
  exact applyMarkers_active _ _ _ _ hact

/-- Witness for the amended C6. -/
theorem no_marker_no_form_activation_witness :
    hasFormMarker "I need a mudra loan" = false
    ∧ _extract_form_from_text "I need a mudra loan" = ("I need a mudra loan", none) :=
  ⟨by decide, (no_marker_no_form_activation "I need a mudra loan" (by decide)).1⟩

/-! ## C7: marker extraction order and idempotence -/

/-- C7 is refuted at a concrete input: on
`"##FORM:##QUESTION_ANSWERED##abc##"` form-first extraction finds no
form marker, while removing the question-answered marker first creates
one (`##FORM:abc##`) that is then found — so order matters — and the
codec pipeline's own output still contains a marker, so applying the
codec a second time changes the text. -/
theorem marker_extraction_order_counterexample :
    (_extract_form_from_text "##FORM:##QUESTION_ANSWERED##abc##").2 = none
    ∧ (_extract_form_from_text
        (_extract_question_answered_from_text "##FORM:##QUESTION_ANSWERED##abc##").1).2
        = some "abc"
    ∧ marker_pipeline_clean "##FORM:##QUESTION_ANSWERED##abc##" = "##FORM:abc##"
    ∧ marker_pipeline_clean (marker_pipeline_clean "##FORM:##QUESTION_ANSWERED##abc##")
        ≠ marker_pipeline_clean "##FORM:##QUESTION_ANSWERED##abc##" := by
  refine ⟨by decide, by decide, by decide, by decide⟩

/-- No-match behaviour of the form extractor: the text is returned
unchanged and no form is found. -/
theorem extract_form_none (t : String)
    (h : searchFirst matchFormAt t.toList = none) :
    _extract_form_from_text t = (t, none) := by
  unfold _extract_form_from_text
  rw [h]

/-- No-match behaviour of the form-value extractor. -/
theorem extract_value_none (t : String)
    (h : searchFirst matchValueAt t.toList = none) :
    _extract_form_value_from_text t = (t, none) := by
  unfold _extract_form_value_from_text
  rw [h]

/-- No-match behaviour of the question-answered extractor. -/
theorem extract_qa_none (t : String)
    (h : searchFirst matchQAAt t.toList = none) :
    _extract_question_answered_from_text t = (t, false) := by
  unfold _extract_question_answered_from_text
  rw [h]

/-- Matching a nonempty literal consumes exactly its length. -/
theorem dropLitCI_length (ps : List Char) :
    ∀ l r : List Char, dropLitCI ps l = some r → r.length + ps.length = l.length := by
  induction ps with
  | nil =>
    intro l r h
    simp only [dropLitCI, Option.some.injEq] at h
    subst h
    simp
  | cons p ps ih =>
    intro l r h
    cases l with
    | nil => simp [dropLitCI] at h
    | cons c cs =>
      simp only [dropLitCI] at h
      split at h
      · have := ih cs r h
        simp only [List.length_cons]
        omega
      · simp at h

/-- A span partitions its input. -/
theorem spanP_length (p : Char → Bool) : ∀ l : List Char,
    (spanP p l).1.length + (spanP p l).2.length = l.length := by
  intro l
  induction l with
  | nil => rfl
  | cons c cs ih =>
    simp only [spanP]
    split
    · simp only [List.length_cons]
      omega
    · simp

/-- A form-marker match strictly consumes input. -/
theorem matchFormAt_lt : ∀ (l : List Char) (gr : String × List Char),
    matchFormAt l = some gr → gr.2.length < l.length := by
  intro l gr h
  unfold matchFormAt at h
  cases h1 : dropLitCI "##form:".toList l with
  | none => rw [h1] at h; simp at h
  | some r1 =>
    rw [h1] at h
    simp only at h
    split at h
    · simp at h
    · cases h2 : dropLitCI "##".toList (spanP isWordChar r1).2 with
      | none => rw [h2] at h; simp at h
      | some r3 =>
        rw [h2] at h
        simp only [Option.some.injEq] at h
        have e1 := dropLitCI_length _ _ _ h1
        have e2 := spanP_length isWordChar r1
        have e3 := dropLitCI_length _ _ _ h2
        have l1 : ("##form:".toList).length = 7 := rfl
        have l2 : ("##".toList).length = 2 := rfl
        have : gr.2 = r3 := by rw [← h]
        rw [this]
        omega

/-- A form-value-marker match strictly consumes input. -/
theorem matchValueAt_lt : ∀ (l : List Char) (gr : String × List Char),
    matchValueAt l = some gr → gr.2.length < l.length := by
  intro l gr h
  unfold matchValueAt at h
  cases h1 : dropLitCI "##form_value:".toList l with
  | none => rw [h1] at h; simp at h
  | some r1 =>
    rw [h1] at h
    simp only at h
    split at h
    · simp at h
    · cases h2 : dropLitCI "##".toList (spanP (fun c => c ≠ '#') r1).2 with
      | none => rw [h2] at h; simp at h
      | some r3 =>
        rw [h2] at h
        simp only [Option.some.injEq] at h
        have e1 := dropLitCI_length _ _ _ h1
        have e2 := spanP_length (fun c => c ≠ '#') r1
        have e3 := dropLitCI_length _ _ _ h2
        have l1 : ("##form_value:".toList).length = 13 := rfl
        have l2 : ("##".toList).length = 2 := rfl
        have : gr.2 = r3 := by rw [← h]
        rw [this]
        omega

/-- A question-answered-marker match strictly consumes input. -/
theorem matchQAAt_lt : ∀ (l : List Char) (gr : String × List Char),
    matchQAAt l = some gr → gr.2.length < l.length := by
  intro l gr h
  unfold matchQAAt at h
  cases h1 : dropLitCI "##question_answered##".toList l with
  | none => rw [h1] at h; simp at h
  | some r =>
    rw [h1] at h
    simp only [Option.some.injEq] at h
    have e1 := dropLitCI_length _ _ _ h1
    have l1 : ("##question_answered##".toList).length = 21 := rfl
    have : gr.2 = r := by rw [← h]
    rw [this]
    omega

/-- Removing matches never lengthens the text. -/
theorem subAllF_length_le (m : List Char → Option (String × List Char))
    (hm : ∀ l gr, m l = some gr → gr.2.length < l.length) :
    ∀ (fuel : Nat) (l : List Char), (subAllF m fuel l).length ≤ l.length := by
  intro fuel
  induction fuel with
  | zero =>
    intro l
    cases l <;> simp [subAllF]
  | succ f ih =>
    intro l
    cases l with
    | nil => simp [subAllF]
    | cons c cs =>
      simp only [subAllF]
      cases h : m (c :: cs) with
      | some gr =>
        exact le_trans (ih gr.2) (le_of_lt (hm _ _ h))
      | none =>
        simp only [List.length_cons]
        exact Nat.succ_le_succ (ih cs)

/-- When some position matches, removal strictly shortens the text
(given enough fuel, which `subAll` always supplies). -/
theorem subAllF_length_lt (m : List Char → Option (String × List Char))
    (hm : ∀ l gr, m l = some gr → gr.2.length < l.length) :
    ∀ (fuel : Nat) (l : List Char), l.length ≤ fuel → searchFirst m l ≠ none →
      (subAllF m fuel l).length < l.length := by
  intro fuel
  induction fuel with
  | zero =>
    intro l hf hs
    cases l with
    | nil => exact absurd rfl hs
    | cons c cs => simp at hf
  | succ f ih =>
    intro l hf hs
    cases l with
    | nil => exact absurd rfl hs
    | cons c cs =>
      simp only [subAllF]
      cases h : m (c :: cs) with
      | some gr =>
        exact lt_of_le_of_lt (subAllF_length_le m hm f gr.2) (hm _ _ h)
      | none =>
        have hs' : searchFirst m cs ≠ none := by
          intro hc
          apply hs
          simp only [searchFirst, h, hc]
        have hf' : cs.length ≤ f := by
          simp only [List.length_cons] at hf
          omega
        simp only [List.length_cons]
        exact Nat.succ_lt_succ (ih cs hf' hs')

/-- Dropping a leading run never lengthens a list. -/
theorem dropWhile_len_le (p : Char → Bool) : ∀ l : List Char,
    (l.dropWhile p).length ≤ l.length := by
  intro l
  induction l with
  | nil => simp
  | cons c cs ih =>
    simp only [List.dropWhile]
    split
    · exact le_trans ih (Nat.le_succ _)
    · exact le_refl _

/-- Stripping never lengthens a string. -/
theorem pyStrip_length_le (s : String) : (pyStrip s).length ≤ s.length := by
  show ((((s.toList.dropWhile pySpace).reverse).dropWhile pySpace).reverse).length
      ≤ s.toList.length
  rw [List.length_reverse]
  exact le_trans (dropWhile_len_le pySpace _)
    (by rw [List.length_reverse]; exact dropWhile_len_le pySpace _)

/-- The cleaned text of a matching extractor branch is never longer than
the input. -/
theorem cleanShape_le (m : List Char → Option (String × List Char))
    (hm : ∀ l gr, m l = some gr → gr.2.length < l.length) (t : String) :
    (pyStrip (String.mk (subAll m t.toList))).length ≤ t.length :=
  le_trans (pyStrip_length_le _) (subAllF_length_le m hm _ _)

/-- The cleaned text of a matching extractor branch is strictly shorter
than the input whenever some position matches. -/
theorem cleanShape_lt (m : List Char → Option (String × List Char))
    (hm : ∀ l gr, m l = some gr → gr.2.length < l.length) (t : String)
    (h : searchFirst m t.toList ≠ none) :
    (pyStrip (String.mk (subAll m t.toList))).length < t.length :=
  lt_of_le_of_lt (pyStrip_length_le _) (subAllF_length_lt m hm _ _ le_rfl h)

/-- The form extractor never lengthens the text. -/
theorem extract_form_clean_le (t : String) :
    (_extract_form_from_text t).1.length ≤ t.length := by
  unfold _extract_form_from_text
  cases h : searchFirst matchFormAt t.toList with
  | none => exact le_refl _
  | some g => exact cleanShape_le matchFormAt matchFormAt_lt t

/-- The form extractor strictly shortens the text when a marker occurs. -/
theorem extract_form_clean_lt (t : String)
    (h : searchFirst matchFormAt t.toList ≠ none) :
    (_extract_form_from_text t).1.length < t.length := by
  unfold _extract_form_from_text
  cases hq : searchFirst matchFormAt t.toList with
  | none => exact absurd hq h
  | some g => exact cleanShape_lt matchFormAt matchFormAt_lt t h

/-- The form-value extractor never lengthens the text. -/
theorem extract_value_clean_le (t : String) :
    (_extract_form_value_from_text t).1.length ≤ t.length := by
  unfold _extract_form_value_from_text
  cases h : searchFirst matchValueAt t.toList with
  | none => exact le_refl _
  | some g => exact cleanShape_le matchValueAt matchValueAt_lt t

/-- The form-value extractor strictly shortens the text when a marker
occurs. -/
theorem extract_value_clean_lt (t : String)
    (h : searchFirst matchValueAt t.toList ≠ none) :
    (_extract_form_value_from_text t).1.length < t.length := by
  unfold _extract_form_value_from_text
  cases hq : searchFirst matchValueAt t.toList with
  | none => exact absurd hq h
  | some g => exact cleanShape_lt matchValueAt matchValueAt_lt t h

/-- The question-answered extractor never lengthens the text. -/
theorem extract_qa_clean_le (t : String) :
    (_extract_question_answered_from_text t).1.length ≤ t.length := by
  unfold _extract_question_answered_from_text
  cases h : searchFirst matchQAAt t.toList with
  | none => exact le_refl _
  | some g => exact cleanShape_le matchQAAt matchQAAt_lt t

/-- The question-answered extractor strictly shortens the text when a
marker occurs. -/
theorem extract_qa_clean_lt (t : String)
    (h : searchFirst matchQAAt t.toList ≠ none) :
    (_extract_question_answered_from_text t).1.length < t.length := by
  unfold _extract_question_answered_from_text
  cases hq : searchFirst matchQAAt t.toList with
  | none => exact absurd hq h
  | some g => exact cleanShape_lt matchQAAt matchQAAt_lt t h

/-- A codec pass strictly shortens any text that still contains one of
the three markers (each extractor removes at least its own matches and
none of them lengthens the text). -/
theorem pipeline_clean_lt (u : String) (h : ¬ noMarkers u) :
    (marker_pipeline_clean u).length < u.length := by
  by_cases h1 : searchFirst matchFormAt u.toList = none
  · by_cases h2 : searchFirst matchValueAt u.toList = none
    · have h3 : searchFirst matchQAAt u.toList ≠ none := by
        intro hc
        exact h ⟨h1, h2, hc⟩
      show (_extract_question_answered_from_text
        (_extract_form_value_from_text
          (_extract_form_from_text u).1).1).1.length < u.length
      rw [extract_form_none u h1, extract_value_none u h2]
      exact extract_qa_clean_lt u h3
    · show (_extract_question_answered_from_text
        (_extract_form_value_from_text
          (_extract_form_from_text u).1).1).1.length < u.length
      rw [extract_form_none u h1]
      exact lt_of_le_of_lt (extract_qa_clean_le _) (extract_value_clean_lt u h2)
  · show (_extract_question_answered_from_text
      (_extract_form_value_from_text
        (_extract_form_from_text u).1).1).1.length < u.length
    exact lt_of_le_of_lt (extract_qa_clean_le _)
      (lt_of_le_of_lt (extract_value_clean_le _) (extract_form_clean_lt u h1))

/-- C7 amended: on a text containing none of the three markers every
extractor returns the text unchanged and finds nothing — so on such
texts extraction order is irrelevant and the codec is a no-op — and the
codec is idempotent exactly on texts whose first-pass output is
marker-free: a second pass is a no-op if and only if the first pass's
output contains no marker (removal of one marker can create another, as
the counterexample shows, so this is genuinely conditional). -/
theorem marker_codec_noop_on_marker_free (t : String) :
    (noMarkers t →
      _extract_form_from_text t = (t, none)
      ∧ _extract_form_value_from_text t = (t, none)
      ∧ _extract_question_answered_from_text t = (t, false))
    ∧ (marker_pipeline_clean (marker_pipeline_clean t) = marker_pipeline_clean t ↔
        noMarkers (marker_pipeline_clean t)) := by
  constructor
  · intro hu
    obtain ⟨h1, h2, h3⟩ := hu
    exact ⟨extract_form_none t h1, extract_value_none t h2, extract_qa_none t h3⟩
  · constructor
    · intro heq
      by_contra hm
      have hlt := pipeline_clean_lt (marker_pipeline_clean t) hm
      rw [heq] at hlt
      exact lt_irrefl _ hlt
    · intro hm
      obtain ⟨h1, h2, h3⟩ := hm
      show (_extract_question_answered_from_text
        (_extract_form_value_from_text
          (_extract_form_from_text (marker_pipeline_clean t)).1).1).1
          = marker_pipeline_clean t
      rw [extract_form_none _ h1]
      simp [extract_value_none _ h2, extract_qa_none _ h3]

/-- Witness for the amended C7. -/
theorem marker_codec_noop_witness :
    noMarkers "hello world"
    ∧ _extract_form_from_text "hello world" = ("hello world", none) :=
  ⟨⟨by decide, by decide, by decide⟩,
   ((marker_codec_noop_on_marker_free "hello world").1 ⟨by decide, by decide, by decide⟩).1⟩

/-! ## Remaining witnesses -/

/-- Witness for C2: the invalid submission `"small"` against the
enumerated current field is rejected with the structured error and the
store is unchanged. -/
theorem process_user_answer_cursor_witness :
    get_active_session mgr0 "u" = some sess0
    ∧ sess0.current_field = some enumField0
    ∧ process_user_answer defaultEnv mgr0 "u" "small"
        = (mgr0,
           { success := false,
             error := some ("Invalid value for " ++ enumField0.label ++ ". Expected "
               ++ enumField0.ftype ++ "."),
             errField := some { id := enumField0.id, label := enumField0.label,
                                ftype := enumField0.ftype } }) :=
  ⟨rfl, rfl,
   (process_user_answer_cursor defaultEnv mgr0 "u" "small" sess0 enumField0 rfl rfl).1
     (by decide)⟩

/-- Witness for C8: `"shishu"` against `["Shishu","Kishor"]` matches
case-insensitively and the canonical `"Shishu"` is stored. -/
theorem enumerated_validation_canonical_witness :
    enumField0.options = some ["Shishu", "Kishor"]
    ∧ _validate_and_convert_value defaultEnv enumField0 "shishu" = some (.s "Shishu")
    ∧ (((_validate_and_convert_value defaultEnv enumField0 "shishu").isSome = true) ↔
        ∃ o ∈ ["Shishu", "Kishor"], lowerStr (pyStrip "shishu") = lowerStr o) :=
  ⟨rfl, by decide,
   (enumerated_validation_canonical defaultEnv enumField0 ["Shishu", "Kishor"]
      (by decide) (by decide) (by decide) (by decide) rfl (by decide) "shishu").1⟩

/-- Witness for C9 on a concrete date field. -/
theorem date_validation_characterization_witness :
    dateField0.ftype = "date"
    ∧ _validate_and_convert_value defaultEnv dateField0 "2024-01-05"
        = some (.s "2024-01-05")
    ∧ _validate_and_convert_value defaultEnv dateField0 "not-a-date" = none :=
  ⟨rfl, (date_validation_characterization defaultEnv dateField0 rfl).2.1,
   (date_validation_characterization defaultEnv dateField0 rfl).2.2.2.2.2⟩

end GovAssist
